import Mathlib

/-!
Verification development for the PolyDelta team-identity-resolution and
de-vig pricing engine (`scraper/scraper.py`, `scripts/daily_analysis_job.py`).

Numeric quote values are modelled with `ℚ`; Python strings are modelled with
`String` and the handful of `str` methods the engine uses (`lower`, `strip`,
substring tests) are reimplemented below at the ASCII level, which covers every
string occurring in the engine's mapping tables.  Python `dict`s are modelled
as insertion-ordered association lists with overwrite-in-place update, which is
exactly the iteration/update semantics of CPython dicts.
-/

/-- Python `str.lower` restricted to ASCII (every upper-case letter in the
engine's tables is ASCII; the few accented characters are already lower-case). -/
def lowerChar (c : Char) : Char :=
  if 65 ≤ c.toNat ∧ c.toNat ≤ 90 then Char.ofNat (c.toNat + 32) else c

/-- Python `str.lower` on a whole string. -/
def strLower (s : String) : String := String.mk (s.data.map lowerChar)

/-- ASCII whitespace, as stripped by Python `str.strip` on the engine's data. -/
def isWsChar (c : Char) : Bool := c == ' ' || c == '\t' || c == '\n' || c == '\r'

/-- Python `str.strip`. -/
def pyStrip (s : String) : String :=
  String.mk (((s.data.dropWhile isWsChar).reverse.dropWhile isWsChar).reverse)

/-- List prefix test (Boolean), used to model Python substring membership. -/
def listIsPrefix : List Char → List Char → Bool
  | [], _ => true
  | _ :: _, [] => false
  | a :: as, b :: bs => a == b && listIsPrefix as bs

/-- List infix test (Boolean). -/
def listIsInfix (needle : List Char) : List Char → Bool
  | [] => listIsPrefix needle []
  | b :: bs => listIsPrefix needle (b :: bs) || listIsInfix needle bs

/-- Python `needle in hay` substring test. -/
def strContains (hay needle : String) : Bool := listIsInfix needle.data hay.data

/-- Python `str.endsWith`-style helper used to model the trailing-suffix regex. -/
def strEndsWith (s suffix : String) : Bool :=
  listIsPrefix suffix.data.reverse s.data.reverse

/-- Python `round(x) ` to an integer: round-half-to-even (banker's rounding). -/
def pyRoundInt (q : ℚ) : ℤ :=
  let f := ⌊q⌋
  let r := q - f
  if r < 1/2 then f
  else if 1/2 < r then f + 1
  else if f % 2 = 0 then f else f + 1

/-- Python `round(x, 4)` as used for the stored de-vigged probabilities. -/
def round4 (q : ℚ) : ℚ := (pyRoundInt (q * 10000) : ℚ) / 10000

/-- EV calculation from `scripts/daily_analysis_job.py` (`calculate_ev`):
computes the relative edge for the home and away sides, guarded by Python
truthiness (`if home_odds and poly_home and poly_home > 0`), and returns the
maximum of the collected edges, or `0` if none was collected. -/
def calculate_ev (home_odds away_odds poly_home poly_away : ℚ) : ℚ :=
  let evs :=
    (if home_odds ≠ 0 ∧ poly_home ≠ 0 ∧ 0 < poly_home then
      [(home_odds - poly_home) / poly_home] else []) ++
    (if away_odds ≠ 0 ∧ poly_away ≠ 0 ∧ 0 < poly_away then
      [(away_odds - poly_away) / poly_away] else [])
  match evs with
  | [] => 0
  | x :: xs => xs.foldl max x

/-- C7 (counterexample): the claim asserts `compute_ev` returns
`(true_probability - market_price) / market_price` for every market price
strictly greater than `0`; but with a true probability of `0` (a missing
bookmaker side, stored as `0`) and a market price of `1/2 > 0`, the code's
truthiness guard skips the side and returns `0`, not the formula's `-1`. -/
theorem calculate_ev_zero_prob_counterexample :
    calculate_ev 0 0 (1/2) 0 = 0 ∧ ((0 : ℚ) - 1/2) / (1/2) = -1 ∧ (0 : ℚ) ≠ -1 := by
  refine ⟨?_, by norm_num, by norm_num⟩
  simp [calculate_ev]

/-- C7 (amended): for a nonzero true probability `t` and a market price
`m > 0`, the home-side application of `calculate_ev` returns `(t - m)/m`, and
that edge is strictly positive exactly when `t` exceeds `m`; when neither side
has a positive market price the function returns `0` without any division; and
the claim's sign examples hold: `calculate_ev 0.6 _ 0.5 _ > 0` and
`calculate_ev 0.4 _ 0.5 _ < 0`. -/
theorem calculate_ev_spec (t m ho ao ph pa : ℚ)
    (ht : t ≠ 0) (hm : 0 < m) (hph : ph ≤ 0) (hpa : pa ≤ 0) :
    calculate_ev t 0 m 0 = (t - m) / m ∧
    (0 < calculate_ev t 0 m 0 ↔ m < t) ∧
    calculate_ev ho ao ph pa = 0 ∧
    0 < calculate_ev (3/5) 0 (1/2) 0 ∧
    calculate_ev (2/5) 0 (1/2) 0 < 0 := by
  have hmne : m ≠ 0 := ne_of_gt hm
  have hc1 : t ≠ 0 ∧ m ≠ 0 ∧ 0 < m := ⟨ht, hmne, hm⟩
  have hc2 : ¬((0 : ℚ) ≠ 0 ∧ (0 : ℚ) ≠ 0 ∧ (0 : ℚ) < 0) := by
    rintro ⟨h, -, -⟩; exact h rfl
  have hcode : calculate_ev t 0 m 0 = (t - m) / m := by
    simp only [calculate_ev]
    rw [if_pos hc1, if_neg hc2]
    rfl
  refine ⟨hcode, ?_, ?_, by norm_num [calculate_ev], by norm_num [calculate_ev]⟩
  · rw [hcode]
    rw [div_pos_iff]
    constructor
    · rintro (⟨h1, -⟩ | ⟨-, h2⟩)
      · linarith
      · linarith
    · intro h
      exact Or.inl ⟨by linarith, hm⟩
  · have h1 : ¬(ho ≠ 0 ∧ ph ≠ 0 ∧ 0 < ph) := by
      rintro ⟨-, -, h⟩; linarith
    have h2 : ¬(ao ≠ 0 ∧ pa ≠ 0 ∧ 0 < pa) := by
      rintro ⟨-, -, h⟩; linarith
    simp [calculate_ev, if_neg h1, if_neg h2]

/-- C7 witness: the amended EV theorem instantiated at
`t = 3/5`, `m = 1/2`, and a record whose market prices are nonpositive. -/
theorem calculate_ev_spec_witness :
    calculate_ev (3/5) 0 (1/2) 0 = ((3:ℚ)/5 - 1/2) / (1/2) ∧
    (0 < calculate_ev (3/5) 0 (1/2) 0 ↔ (1:ℚ)/2 < 3/5) ∧
    calculate_ev 1 1 (-1) 0 = 0 ∧
    0 < calculate_ev (3/5) 0 (1/2) 0 ∧
    calculate_ev (2/5) 0 (1/2) 0 < 0 :=
  calculate_ev_spec (3/5) (1/2) 1 1 (-1) 0
    (by norm_num) (by norm_num) (by norm_num) (by norm_num)

/-- Association-list lookup mirroring Python `dict[k]` / `k in dict`.  The
tables below are built so that keys are unique (duplicates overwritten in
place), so first-match lookup matches CPython semantics. -/
def lookupStr (l : List (String × String)) (k : String) : Option String :=
  (l.find? (fun kv => kv.1 == k)).map (·.2)

/-- Python `dict` update `d[k] = v`: overwrite in place if the key exists
(keeping its position), else append at the end. -/
def upsert : List (String × String) → String → String → List (String × String)
  | [], k, v => [(k, v)]
  | (k', v') :: t, k, v =>
    if k' = k then (k, v) :: t else (k', v') :: upsert t k v

/-- NBA_TEAM_ALIASES from `scraper.py` (canonical team name, alias list). -/
def NBA_TEAM_ALIASES : List (String × List String) := [
  ("Boston Celtics", ["celtics", "boston"]),
  ("Brooklyn Nets", ["nets", "brooklyn"]),
  ("New York Knicks", ["knicks", "new york", "ny knicks"]),
  ("Philadelphia 76ers", ["76ers", "sixers", "philadelphia", "philly"]),
  ("Toronto Raptors", ["raptors", "toronto"]),
  ("Chicago Bulls", ["bulls", "chicago"]),
  ("Cleveland Cavaliers", ["cavaliers", "cavs", "cleveland"]),
  ("Detroit Pistons", ["pistons", "detroit"]),
  ("Indiana Pacers", ["pacers", "indiana"]),
  ("Milwaukee Bucks", ["bucks", "milwaukee"]),
  ("Atlanta Hawks", ["hawks", "atlanta"]),
  ("Charlotte Hornets", ["hornets", "charlotte"]),
  ("Miami Heat", ["heat", "miami"]),
  ("Orlando Magic", ["magic", "orlando"]),
  ("Washington Wizards", ["wizards", "washington"]),
  ("Denver Nuggets", ["nuggets", "denver"]),
  ("Minnesota Timberwolves", ["timberwolves", "wolves", "minnesota"]),
  ("Oklahoma City Thunder", ["thunder", "okc", "oklahoma"]),
  ("Portland Trail Blazers", ["trail blazers", "blazers", "portland"]),
  ("Utah Jazz", ["jazz", "utah"]),
  ("Golden State Warriors", ["warriors", "golden state", "gsw"]),
  ("Los Angeles Clippers", ["clippers", "la clippers", "lac"]),
  ("Los Angeles Lakers", ["lakers", "la lakers", "lal"]),
  ("Phoenix Suns", ["suns", "phoenix"]),
  ("Sacramento Kings", ["kings", "sacramento"]),
  ("Dallas Mavericks", ["mavericks", "mavs", "dallas"]),
  ("Houston Rockets", ["rockets", "houston"]),
  ("Memphis Grizzlies", ["grizzlies", "memphis"]),
  ("New Orleans Pelicans", ["pelicans", "new orleans"]),
  ("San Antonio Spurs", ["spurs", "san antonio"])]

/-- SOCCER_TEAM_ALIASES from `scraper.py`. -/
def SOCCER_TEAM_ALIASES : List (String × List String) := [
  ("Arsenal", ["arsenal", "gunners"]),
  ("Manchester City", ["man city", "city", "manchester city"]),
  ("Liverpool", ["liverpool", "reds"]),
  ("Chelsea", ["chelsea", "blues"]),
  ("Manchester United", ["man utd", "man united", "manchester united", "united"]),
  ("Tottenham Hotspur", ["tottenham", "spurs", "tottenham hotspur"]),
  ("Newcastle United", ["newcastle", "magpies", "newcastle united"]),
  ("Aston Villa", ["aston villa", "villa"]),
  ("Brighton and Hove Albion", ["brighton", "brighton hove albion", "seagulls"]),
  ("West Ham United", ["west ham", "hammers", "west ham united"]),
  ("Fulham", ["fulham", "cottagers"]),
  ("Brentford", ["brentford", "bees"]),
  ("Crystal Palace", ["crystal palace", "palace", "eagles"]),
  ("Everton", ["everton", "toffees"]),
  ("Nottingham Forest", ["nottingham forest", "forest", "nott'm forest"]),
  ("AFC Bournemouth", ["bournemouth", "afc bournemouth", "cherries"]),
  ("Wolverhampton Wanderers", ["wolves", "wolverhampton", "wolverhampton wanderers"]),
  ("Leicester City", ["leicester", "foxes", "leicester city"]),
  ("Ipswich Town", ["ipswich", "ipswich town", "tractor boys"]),
  ("Southampton", ["southampton", "saints"]),
  ("Real Madrid", ["real madrid", "real", "los blancos"]),
  ("Barcelona", ["barcelona", "barca", "fcb"]),
  ("Bayern Munich", ["bayern", "bayern munich", "bayern munchen"]),
  ("Paris Saint Germain", ["psg", "paris", "paris saint-germain", "paris sg"]),
  ("Juventus", ["juventus", "juve"]),
  ("AC Milan", ["ac milan", "milan"]),
  ("Inter Milan", ["inter", "inter milan", "internazionale"]),
  ("Atletico Madrid", ["atletico", "atletico madrid", "atleti"]),
  ("Borussia Dortmund", ["dortmund", "bvb", "borussia dortmund"]),
  ("RB Leipzig", ["leipzig", "rb leipzig"]),
  ("Benfica", ["benfica", "sl benfica"]),
  ("FC Porto", ["porto", "fc porto"]),
  ("Ajax", ["ajax", "afc ajax"]),
  ("Napoli", ["napoli", "ssc napoli"]),
  ("Sevilla", ["sevilla", "sevilla fc"]),
  ("Sporting CP", ["sporting", "sporting cp", "sporting lisbon"]),
  ("Celtic", ["celtic", "celtic fc"]),
  ("PSV Eindhoven", ["psv", "psv eindhoven"]),
  ("Feyenoord", ["feyenoord"]),
  ("Club Brugge", ["club brugge", "brugge"]),
  ("Red Bull Salzburg", ["salzburg", "rb salzburg", "red bull salzburg"]),
  ("Shakhtar Donetsk", ["shakhtar", "shakhtar donetsk"]),
  ("Galatasaray", ["galatasaray", "gala"]),
  ("Lazio", ["lazio", "ss lazio"]),
  ("Atalanta", ["atalanta"]),
  ("Monaco", ["monaco", "as monaco"]),
  ("Lille", ["lille", "losc", "losc lille"]),
  ("Bayer Leverkusen", ["leverkusen", "bayer leverkusen"]),
  ("VfB Stuttgart", ["stuttgart", "vfb stuttgart"])]

/-- SOCCER_TEAM_MAPPING from `scraper.py` (The Odds API name, Polymarket name),
in source literal order.  The literal repeats the key "Aston Villa" with the
same value; the duplicate is kept so iteration-based constructions below see
the same entries the Python dict comprehension sees. -/
def SOCCER_TEAM_MAPPING : List (String × String) := [
  ("Wolverhampton Wanderers", "Wolves"),
  ("Wolverhampton Wanderers FC", "Wolves"),
  ("Brighton and Hove Albion", "Brighton"),
  ("Brighton and Hove Albion FC", "Brighton"),
  ("Brighton & Hove Albion FC", "Brighton"),
  ("Leeds United", "Leeds United"),
  ("Leeds United FC", "Leeds United"),
  ("West Ham United", "West Ham"),
  ("West Ham United FC", "West Ham"),
  ("Manchester United", "Manchester United"),
  ("Manchester United FC", "Manchester United"),
  ("Manchester City", "Manchester City"),
  ("Manchester City FC", "Manchester City"),
  ("Newcastle United", "Newcastle"),
  ("Newcastle United FC", "Newcastle"),
  ("Tottenham Hotspur", "Tottenham"),
  ("Tottenham Hotspur FC", "Tottenham"),
  ("Nottingham Forest", "Nottingham Forest"),
  ("Nottingham Forest FC", "Nottingham Forest"),
  ("Sheffield United", "Sheffield United"),
  ("Sheffield United FC", "Sheffield United"),
  ("Leicester City", "Leicester"),
  ("Leicester City FC", "Leicester"),
  ("AFC Bournemouth", "Bournemouth"),
  ("Bournemouth FC", "Bournemouth"),
  ("Ipswich Town", "Ipswich"),
  ("Ipswich Town FC", "Ipswich"),
  ("Arsenal", "Arsenal"),
  ("Arsenal FC", "Arsenal"),
  ("Chelsea", "Chelsea"),
  ("Chelsea FC", "Chelsea"),
  ("Liverpool", "Liverpool"),
  ("Liverpool FC", "Liverpool"),
  ("Everton", "Everton"),
  ("Everton FC", "Everton"),
  ("Aston Villa", "Aston Villa"),
  ("Aston Villa FC", "Aston Villa"),
  ("Crystal Palace", "Crystal Palace"),
  ("Crystal Palace FC", "Crystal Palace"),
  ("Fulham", "Fulham"),
  ("Fulham FC", "Fulham"),
  ("Brentford", "Brentford"),
  ("Brentford FC", "Brentford"),
  ("Southampton", "Southampton"),
  ("Southampton FC", "Southampton"),
  ("Paris Saint Germain", "PSG"),
  ("Paris Saint-Germain FC", "PSG"),
  ("Bayern Munich", "Bayern"),
  ("FC Bayern Munich", "Bayern"),
  ("Borussia Dortmund", "Dortmund"),
  ("RB Leipzig", "Leipzig"),
  ("Atletico Madrid", "Atletico"),
  ("Club Atlético De Madrid", "Atletico"),
  ("Inter Milan", "Inter"),
  ("AC Milan", "Milan"),
  ("Red Bull Salzburg", "Salzburg"),
  ("PSV Eindhoven", "PSV"),
  ("Shakhtar Donetsk", "Shakhtar"),
  ("Bayer Leverkusen", "Leverkusen"),
  ("VfB Stuttgart", "Stuttgart"),
  ("Sporting CP", "Sporting"),
  ("Sporting Lisbon", "Sporting"),
  ("FK Bodø/Glimt", "Bodo Glimt"),
  ("Bodo/Glimt", "Bodo Glimt"),
  ("Qairat FK", "Kairat Almaty"),
  ("FC Kairat", "Kairat Almaty"),
  ("Real Madrid", "Real Madrid"),
  ("Real Madrid CF", "Real Madrid"),
  ("FC Barcelona", "Barcelona"),
  ("Juventus", "Juventus"),
  ("Juventus FC", "Juventus"),
  ("Benfica", "Benfica"),
  ("SL Benfica", "Benfica"),
  ("Feyenoord", "Feyenoord"),
  ("Feyenoord Rotterdam", "Feyenoord"),
  ("Club Brugge", "Club Brugge"),
  ("Club Brugge KV", "Club Brugge"),
  ("Lille", "Lille"),
  ("Lille OSC", "Lille"),
  ("Celtic", "Celtic"),
  ("Celtic FC", "Celtic"),
  ("Monaco", "Monaco"),
  ("AS Monaco", "Monaco"),
  ("Atalanta", "Atalanta"),
  ("Atalanta BC", "Atalanta"),
  ("Aston Villa", "Aston Villa"),
  ("Girona", "Girona"),
  ("Girona FC", "Girona"),
  ("Stuttgart", "Stuttgart"),
  ("Dinamo Zagreb", "Dinamo Zagreb"),
  ("GNK Dinamo Zagreb", "Dinamo Zagreb"),
  ("Slovan Bratislava", "Slovan Bratislava"),
  ("SK Slovan Bratislava", "Slovan Bratislava"),
  ("Sturm Graz", "Sturm Graz"),
  ("SK Sturm Graz", "Sturm Graz"),
  ("Bologna", "Bologna"),
  ("Bologna FC", "Bologna"),
  ("Sparta Praha", "Sparta Prague"),
  ("Sparta Prague", "Sparta Prague"),
  ("AC Sparta Praha", "Sparta Prague"),
  ("Young Boys", "Young Boys"),
  ("BSC Young Boys", "Young Boys"),
  ("Crvena Zvezda", "Red Star Belgrade"),
  ("Red Star Belgrade", "Red Star Belgrade"),
  ("FK Crvena Zvezda", "Red Star Belgrade")]

/-- SOCCER_TEAM_MAPPING_REVERSE, the Python dict comprehension
`{v: k for k, v in SOCCER_TEAM_MAPPING.items()}` (later entries overwrite). -/
def SOCCER_TEAM_MAPPING_REVERSE : List (String × String) :=
  SOCCER_TEAM_MAPPING.foldl (fun acc kv => upsert acc kv.2 kv.1) []

/-- MAPPING from `scraper.py`, as triples (standard name, web2 name, poly name). -/
def MAPPING : List (String × String × String) := [
  ("Arsenal", "Arsenal", "Arsenal"),
  ("Manchester City", "Manchester City", "Manchester City"),
  ("Liverpool", "Liverpool", "Liverpool"),
  ("Chelsea", "Chelsea", "Chelsea"),
  ("Manchester United", "Manchester United", "Manchester United"),
  ("Tottenham", "Tottenham Hotspur", "Tottenham"),
  ("Newcastle", "Newcastle United", "Newcastle"),
  ("Aston Villa", "Aston Villa", "Aston Villa"),
  ("Brighton", "Brighton and Hove Albion", "Brighton"),
  ("West Ham", "West Ham United", "West Ham"),
  ("Fulham", "Fulham", "Fulham"),
  ("Brentford", "Brentford", "Brentford"),
  ("Crystal Palace", "Crystal Palace", "Crystal Palace"),
  ("Everton", "Everton", "Everton"),
  ("Nottingham Forest", "Nottingham Forest", "Nottingham Forest"),
  ("Bournemouth", "AFC Bournemouth", "Bournemouth"),
  ("Wolves", "Wolverhampton Wanderers", "Wolves"),
  ("Leicester", "Leicester City", "Leicester"),
  ("Ipswich", "Ipswich Town", "Ipswich"),
  ("Southampton", "Southampton", "Southampton"),
  ("Real Madrid", "Real Madrid", "Real Madrid"),
  ("Barcelona", "Barcelona", "Barcelona"),
  ("Bayern Munich", "Bayern Munich", "Bayern Munich"),
  ("Paris Saint-Germain", "Paris Saint Germain", "PSG"),
  ("Juventus", "Juventus", "Juventus"),
  ("AC Milan", "AC Milan", "AC Milan"),
  ("Inter Milan", "Inter Milan", "Inter Milan"),
  ("Atletico Madrid", "Atletico Madrid", "Atletico Madrid"),
  ("Borussia Dortmund", "Borussia Dortmund", "Dortmund"),
  ("RB Leipzig", "RB Leipzig", "Leipzig"),
  ("Benfica", "Benfica", "Benfica"),
  ("Porto", "FC Porto", "Porto"),
  ("Ajax", "Ajax", "Ajax"),
  ("Napoli", "Napoli", "Napoli"),
  ("Sevilla", "Sevilla", "Sevilla"),
  ("Sporting CP", "Sporting CP", "Sporting"),
  ("Celtic", "Celtic", "Celtic"),
  ("PSV", "PSV Eindhoven", "PSV"),
  ("Feyenoord", "Feyenoord", "Feyenoord"),
  ("Club Brugge", "Club Brugge", "Club Brugge"),
  ("Red Bull Salzburg", "Red Bull Salzburg", "Salzburg"),
  ("Shakhtar Donetsk", "Shakhtar Donetsk", "Shakhtar"),
  ("Dinamo Zagreb", "Dinamo Zagreb", "Dinamo Zagreb"),
  ("Young Boys", "Young Boys", "Young Boys"),
  ("Galatasaray", "Galatasaray", "Galatasaray"),
  ("Lazio", "Lazio", "Lazio"),
  ("Atalanta", "Atalanta", "Atalanta"),
  ("Monaco", "Monaco", "Monaco"),
  ("Lille", "Lille", "Lille"),
  ("Bayer Leverkusen", "Bayer Leverkusen", "Leverkusen"),
  ("Stuttgart", "VfB Stuttgart", "Stuttgart"),
  ("Girona", "Girona", "Girona"),
  ("Bologna", "Bologna", "Bologna"),
  ("Brest", "Stade Brestois 29", "Brest"),
  ("Sparta Prague", "Sparta Prague", "Sparta Prague"),
  ("Sturm Graz", "Sturm Graz", "Sturm Graz"),
  ("Slovan Bratislava", "Slovan Bratislava", "Slovan Bratislava"),
  ("Boston Celtics", "Boston Celtics", "Boston Celtics"),
  ("Denver Nuggets", "Denver Nuggets", "Denver Nuggets"),
  ("Los Angeles Lakers", "Los Angeles Lakers", "Lakers"),
  ("Golden State Warriors", "Golden State Warriors", "Warriors"),
  ("Milwaukee Bucks", "Milwaukee Bucks", "Bucks"),
  ("Phoenix Suns", "Phoenix Suns", "Suns"),
  ("Philadelphia 76ers", "Philadelphia 76ers", "76ers"),
  ("Miami Heat", "Miami Heat", "Heat"),
  ("Cleveland Cavaliers", "Cleveland Cavaliers", "Cavaliers"),
  ("New York Knicks", "New York Knicks", "Knicks"),
  ("Dallas Mavericks", "Dallas Mavericks", "Mavericks"),
  ("Memphis Grizzlies", "Memphis Grizzlies", "Grizzlies"),
  ("Sacramento Kings", "Sacramento Kings", "Kings"),
  ("LA Clippers", "Los Angeles Clippers", "Clippers"),
  ("Minnesota Timberwolves", "Minnesota Timberwolves", "Timberwolves"),
  ("New Orleans Pelicans", "New Orleans Pelicans", "Pelicans"),
  ("Oklahoma City Thunder", "Oklahoma City Thunder", "Thunder"),
  ("Brooklyn Nets", "Brooklyn Nets", "Nets"),
  ("Atlanta Hawks", "Atlanta Hawks", "Hawks"),
  ("Chicago Bulls", "Chicago Bulls", "Bulls"),
  ("Toronto Raptors", "Toronto Raptors", "Raptors"),
  ("Indiana Pacers", "Indiana Pacers", "Pacers"),
  ("Orlando Magic", "Orlando Magic", "Magic"),
  ("Houston Rockets", "Houston Rockets", "Rockets"),
  ("Argentina", "Argentina", "Argentina"),
  ("Brazil", "Brazil", "Brazil"),
  ("France", "France", "France"),
  ("Germany", "Germany", "Germany"),
  ("England", "England", "England"),
  ("Spain", "Spain", "Spain"),
  ("Portugal", "Portugal", "Portugal"),
  ("Netherlands", "Netherlands", "Netherlands"),
  ("Belgium", "Belgium", "Belgium"),
  ("Italy", "Italy", "Italy"),
  ("Croatia", "Croatia", "Croatia"),
  ("Uruguay", "Uruguay", "Uruguay"),
  ("USA", "United States", "USA"),
  ("Mexico", "Mexico", "Mexico"),
  ("Japan", "Japan", "Japan")]

/-- The `web2` half of `create_reverse_mapping`: lower-cased platform name to
standard name, built in MAPPING iteration order. -/
def REVERSE_MAPPING_web2 : List (String × String) :=
  MAPPING.foldl (fun acc e => upsert acc (strLower e.2.1) e.1) []

/-- The `poly` half of `create_reverse_mapping`. -/
def REVERSE_MAPPING_poly : List (String × String) :=
  MAPPING.foldl (fun acc e => upsert acc (strLower e.2.2) e.1) []

/-- REVERSE_MAPPING.get(platform, {}) from `scraper.py`. -/
def reverseFor (platform : String) : List (String × String) :=
  if platform = "web2" then REVERSE_MAPPING_web2
  else if platform = "poly" then REVERSE_MAPPING_poly
  else []

/-- standardize_name from `scraper.py`: exact lower-cased reverse-mapping hit,
then first entry related by substring containment in either direction, then
the stripped raw name; `None` only for a falsy (empty) input. -/
def standardize_name (name : String) (platform : String) : Option String :=
  if name = "" then none
  else
    let nameLower := strLower name
    let table := reverseFor platform
    match lookupStr table nameLower with
    | some std => some std
    | none =>
      match table.find? (fun kv => strContains nameLower kv.1 || strContains kv.1 nameLower) with
      | some kv => some kv.2
      | none => some (pyStrip name)

/-- C10 (confirmed): `standardize_name` is total on non-empty names — it
returns an exact lower-cased reverse-mapping hit if one exists, otherwise the
first mapping entry related to the lowered name by substring containment in
either direction (no minimum-similarity threshold), otherwise the stripped raw
input — and in every case a non-null string. -/
theorem standardize_name_total_cascade (name platform : String) (h : name ≠ "") :
    (∃ s, standardize_name name platform = some s) ∧
    (∀ std, lookupStr (reverseFor platform) (strLower name) = some std →
      standardize_name name platform = some std) ∧
    (∀ kv, lookupStr (reverseFor platform) (strLower name) = none →
      (reverseFor platform).find?
        (fun kv => strContains (strLower name) kv.1 || strContains kv.1 (strLower name)) =
        some kv →
      standardize_name name platform = some kv.2) ∧
    (lookupStr (reverseFor platform) (strLower name) = none →
      (reverseFor platform).find?
        (fun kv => strContains (strLower name) kv.1 || strContains kv.1 (strLower name)) =
        none →
      standardize_name name platform = some (pyStrip name)) := by
  simp only [standardize_name, if_neg h]
  refine ⟨?_, ?_, ?_, ?_⟩
  · cases h1 : lookupStr (reverseFor platform) (strLower name) with
    | some std => exact ⟨std, rfl⟩
    | none =>
      cases h2 : (reverseFor platform).find?
          (fun kv => strContains (strLower name) kv.1 || strContains kv.1 (strLower name)) with
      | some kv => exact ⟨kv.2, rfl⟩
      | none => exact ⟨pyStrip name, rfl⟩
  · intro std h1
    rw [h1]
  · intro kv h1 h2
    rw [h1, h2]
  · intro h1 h2
    rw [h1, h2]

/-- C10 witness: the totality part of the cascade theorem at the concrete
bookmaker-side name "Wolverhampton Wanderers". -/
theorem standardize_name_total_cascade_witness :
    ∃ s, standardize_name "Wolverhampton Wanderers" "web2" = some s :=
  (standardize_name_total_cascade "Wolverhampton Wanderers" "web2" (by decide)).1

/-- Exact (case-insensitive) alias-table scan shared by both resolvers: for
each table entry the canonical team name is compared first, then each alias
(`if name_lower == team.lower(): ... for alias in aliases: ...`). -/
def exactAliasHit (table : List (String × List String)) (nameLower : String) :
    Option String :=
  table.findSome? (fun tv =>
    if strLower tv.1 = nameLower then some tv.1
    else if tv.2.any (fun a => strLower a == nameLower) then some tv.1
    else none)

/-- One `if score > best_score` update of the fuzzy-scan accumulator. -/
def updateBest (bm : Option String × ℕ) (team : String) (score : ℕ) :
    Option String × ℕ :=
  if bm.2 < score then (some team, score) else bm

/-- The fuzzy scan of `fuzzy_match_team` (NBA): similarity of the lowered input
against each canonical name and each alias, plus a fixed score of 90 when an
alias is a substring of the input (one direction only in the NBA resolver).
The similarity scorer `fuzz.ratio` comes from the external `thefuzz` library
(outside this repository), so it is a parameter `scorer` here. -/
def nbaFuzzScan (scorer : String → String → ℕ) (nameLower : String) :
    Option String × ℕ :=
  NBA_TEAM_ALIASES.foldl (fun bm tv =>
    let bm := updateBest bm tv.1 (scorer nameLower (strLower tv.1))
    tv.2.foldl (fun bm al =>
      let bm := updateBest bm tv.1 (scorer nameLower (strLower al))
      if strContains nameLower (strLower al) then updateBest bm tv.1 90 else bm)
      bm)
    (none, 0)

/-- fuzzy_match_team from `scraper.py` (NBA resolver): exact team/alias match
first (confidence 100), then the fuzzy scan gated by the threshold. -/
def fuzzy_match_team (scorer : String → String → ℕ) (threshold : ℕ)
    (name : String) : Option String × ℕ :=
  let nameLower := pyStrip (strLower name)
  match exactAliasHit NBA_TEAM_ALIASES nameLower with
  | some team => (some team, 100)
  | none =>
    let bm := nbaFuzzScan scorer nameLower
    if threshold ≤ bm.2 then bm else (none, 0)

/-- The fuzzy scan of `fuzzy_match_soccer_team`: like the NBA scan but the
fixed 90 substring bonus fires when the alias is contained in the input or the
input is contained in the alias (both directions). -/
def soccerFuzzScan (scorer : String → String → ℕ) (nameLower : String) :
    Option String × ℕ :=
  SOCCER_TEAM_ALIASES.foldl (fun bm tv =>
    let bm := updateBest bm tv.1 (scorer nameLower (strLower tv.1))
    tv.2.foldl (fun bm al =>
      let bm := updateBest bm tv.1 (scorer nameLower (strLower al))
      if strContains nameLower (strLower al) || strContains (strLower al) nameLower
      then updateBest bm tv.1 90 else bm)
      bm)
    (none, 0)

/-- Lookup of a strict-mapping value in SOCCER_TEAM_ALIASES
(`if mapped_name.lower() in [a.lower() for a in aliases] or
mapped_name.lower() == team.lower()`). -/
def aliasCanonicalOf (mapped : String) : Option String :=
  SOCCER_TEAM_ALIASES.findSome? (fun tv =>
    if tv.2.any (fun a => strLower a == strLower mapped) || strLower mapped == strLower tv.1
    then some tv.1 else none)

/-- Lookup of a reverse-mapping original name in SOCCER_TEAM_ALIASES, team
names only (`if original_name.lower() == team.lower()`). -/
def aliasCanonicalTeamOnly (orig : String) : Option String :=
  SOCCER_TEAM_ALIASES.findSome? (fun tv =>
    if strLower orig == strLower tv.1 then some tv.1 else none)

/-- fuzzy_match_soccer_team from `scraper.py`: strict dictionary mapping first,
then the reverse mapping, then exact alias equality, then the fuzzy scan gated
by the threshold.  As in `fuzzy_match_team`, `fuzz.ratio` is the external
scorer parameter. -/
def fuzzy_match_soccer_team (scorer : String → String → ℕ) (threshold : ℕ)
    (name : String) : Option String × ℕ :=
  let nameStripped := pyStrip name
  let nameLower := strLower nameStripped
  match lookupStr SOCCER_TEAM_MAPPING nameStripped with
  | some mapped =>
    match aliasCanonicalOf mapped with
    | some team => (some team, 100)
    | none => (some nameStripped, 100)
  | none =>
  match lookupStr SOCCER_TEAM_MAPPING_REVERSE nameStripped with
  | some orig =>
    match aliasCanonicalTeamOnly orig with
    | some team => (some team, 100)
    | none => (some orig, 100)
  | none =>
  match exactAliasHit SOCCER_TEAM_ALIASES nameLower with
  | some team => (some team, 100)
  | none =>
    let bm := soccerFuzzScan scorer nameLower
    if threshold ≤ bm.2 then bm else (none, 0)

/-- Uppercase ASCII letter test for the ticker-prefix pattern `[A-Z]{2,4}`. -/
def isUpperAZ (c : Char) : Bool := 65 ≤ c.toNat && c.toNat ≤ 90

/-- ASCII digit test for the ticker-prefix pattern `\d?`. -/
def isDigit09 (c : Char) : Bool := 48 ≤ c.toNat && c.toNat ≤ 57

/-- Model of `re.sub(r'^[A-Z]{2,4}\d?\s+', '', s).strip()`: the anchored
pattern matches exactly when the maximal leading run of upper-case letters has
length 2–4 and is followed (optionally after one digit) by whitespace; the
match, including the greedy whitespace run, is removed, then the result is
stripped. -/
def stripTicker (s : String) : String :=
  let cs := s.data
  let u := (cs.takeWhile isUpperAZ).length
  if 2 ≤ u ∧ u ≤ 4 then
    match cs.drop u with
    | c :: rest =>
      if isWsChar c then pyStrip (String.mk (rest.dropWhile isWsChar))
      else if isDigit09 c then
        match rest with
        | c2 :: rest2 =>
          if isWsChar c2 then pyStrip (String.mk (rest2.dropWhile isWsChar))
          else pyStrip s
        | [] => pyStrip s
      else pyStrip s
    | [] => pyStrip s
  else pyStrip s

/-- Model of `re.sub(r'\s*(FC|AFC|CF)$', '', s, flags=re.IGNORECASE).strip()`:
the end-anchored alternation removes a trailing "afc" (checked first, since its
leftmost match starts earlier), else "fc", else "cf", case-insensitively,
together with the whitespace run before it; the surrounding `.strip()`
subsumes removing that whitespace. -/
def stripFCSuffix (s : String) : String :=
  let low := strLower s
  let k : ℕ :=
    if strEndsWith low "afc" then 3
    else if strEndsWith low "fc" then 2
    else if strEndsWith low "cf" then 2
    else 0
  pyStrip (String.mk (s.data.take (s.data.length - k)))

/-- normalize_team_for_matching from `scraper.py`: strict-mapping lookup of the
stripped name and its ticker-stripped variant, then of their FC-suffix-stripped
variants, then a reverse-mapping membership check over all four variants, and
finally the cleaned (ticker- and suffix-stripped) name itself. -/
def normalize_team_for_matching (name : String) : String :=
  let nameStripped := pyStrip name
  let nameNoTicker := stripTicker nameStripped
  match lookupStr SOCCER_TEAM_MAPPING nameStripped with
  | some v => v
  | none =>
  match lookupStr SOCCER_TEAM_MAPPING nameNoTicker with
  | some v => v
  | none =>
    let nameClean := stripFCSuffix nameStripped
    let nameNoTickerClean := stripFCSuffix nameNoTicker
    match lookupStr SOCCER_TEAM_MAPPING nameClean with
    | some v => v
    | none =>
    match lookupStr SOCCER_TEAM_MAPPING nameNoTickerClean with
    | some v => v
    | none =>
      if (lookupStr SOCCER_TEAM_MAPPING_REVERSE nameStripped).isSome then nameStripped
      else if (lookupStr SOCCER_TEAM_MAPPING_REVERSE nameNoTicker).isSome then nameNoTicker
      else if (lookupStr SOCCER_TEAM_MAPPING_REVERSE nameClean).isSome then nameClean
      else if (lookupStr SOCCER_TEAM_MAPPING_REVERSE nameNoTickerClean).isSome then
        nameNoTickerClean
      else nameNoTickerClean

/-- Membership in an association list makes `lookupStr` succeed. -/
theorem lookupStr_isSome_of_mem (l : List (String × String)) (kv : String × String)
    (h : kv ∈ l) : (lookupStr l kv.1).isSome := by
  induction l with
  | nil => cases h
  | cons a t ih =>
    rcases List.mem_cons.mp h with rfl | ht
    · simp [lookupStr, List.find?]
    · by_cases hak : a.1 == kv.1
      · simp [lookupStr, List.find?, hak]
      · have := ih ht
        simpa [lookupStr, List.find?, hak] using this

/-- `lookupStr` after a Python-dict update: the updated key now maps to the new
value and every other key is unchanged. -/
theorem lookupStr_upsert (acc : List (String × String)) (k v x : String) :
    lookupStr (upsert acc k v) x = if x = k then some v else lookupStr acc x := by
  induction acc with
  | nil =>
    by_cases hx : x = k
    · simp [upsert, lookupStr, List.find?, hx]
    · have hkx : (k == x) = false := by
        simp only [beq_eq_false_iff_ne, ne_eq]
        exact fun hc => hx hc.symm
      simp [upsert, lookupStr, List.find?, hx, hkx]
  | cons a t ih =>
    by_cases hak : a.1 = k
    · by_cases hx : x = k
      · simp [upsert, lookupStr, List.find?, hak, hx, beq_iff_eq]
      · have hxa : ¬(a.1 == x) := by simp [beq_iff_eq, hak]; intro hcontra; exact hx (hcontra ▸ hak ▸ rfl)
        simp only [upsert, if_pos hak, lookupStr, List.find?]
        have hkx : (k == x) = false := by simp [beq_iff_eq]; intro hc; exact hx hc.symm
        simp [hkx, hx, lookupStr, List.find?, show (a.1 == x) = false by simpa using hxa]
    · simp only [upsert, if_neg hak]
      by_cases hax : a.1 = x
      · simp [lookupStr, List.find?, hax, if_neg (show ¬x = k by rintro rfl; exact hak hax)]
      · have : (a.1 == x) = false := by simpa using hax
        simp only [lookupStr, List.find?, this]
        simpa [lookupStr] using ih

/-- Every value of a mapping is a key of the dict-comprehension reverse built
by folding `upsert` (last write wins, as in Python). -/
theorem lookupStr_revFold_isSome (m : List (String × String)) (x : String)
    (acc : List (String × String))
    (h : (∃ kv ∈ m, kv.2 = x) ∨ (lookupStr acc x).isSome) :
    (lookupStr (m.foldl (fun acc kv => upsert acc kv.2 kv.1) acc) x).isSome := by
  induction m generalizing acc with
  | nil =>
    rcases h with ⟨kv, hmem, -⟩ | hs
    · cases hmem
    · simpa using hs
  | cons a t ih =>
    simp only [List.foldl_cons]
    apply ih
    rcases h with ⟨kv, hmem, hval⟩ | hs
    · rcases List.mem_cons.mp hmem with rfl | htl
      · right
        rw [lookupStr_upsert, if_pos hval.symm]
        rfl
      · exact Or.inl ⟨kv, htl, hval⟩
    · right
      rw [lookupStr_upsert]
      by_cases hx : x = a.2 <;> simp [hx, hs]

/-- A strict-dictionary hit makes the soccer resolver return confidence 100. -/
theorem fmst_conf_of_strict (scorer : String → String → ℕ) (t : ℕ) (name v : String)
    (h : lookupStr SOCCER_TEAM_MAPPING (pyStrip name) = some v) :
    (fuzzy_match_soccer_team scorer t name).2 = 100 := by
  unfold fuzzy_match_soccer_team
  simp only [h]
  cases hv : aliasCanonicalOf v <;> simp [hv]

/-- A reverse-dictionary hit (after a strict miss) also returns confidence 100. -/
theorem fmst_conf_of_reverse (scorer : String → String → ℕ) (t : ℕ) (name o : String)
    (h1 : lookupStr SOCCER_TEAM_MAPPING (pyStrip name) = none)
    (h2 : lookupStr SOCCER_TEAM_MAPPING_REVERSE (pyStrip name) = some o) :
    (fuzzy_match_soccer_team scorer t name).2 = 100 := by
  unfold fuzzy_match_soccer_team
  simp only [h1, h2]
  cases hv : aliasCanonicalTeamOnly o <;> simp [hv]

/-- Every key and every value of SOCCER_TEAM_MAPPING survives `str.strip`
unchanged (they carry no surrounding whitespace). -/
theorem soccer_mapping_strip_id :
    SOCCER_TEAM_MAPPING.all (fun kv => pyStrip kv.1 == kv.1 && pyStrip kv.2 == kv.2) = true := by
  decide

set_option maxRecDepth 10000 in
/-- C3 (counterexample): the claim says resolving a strict-dictionary key
returns the dictionary's mapped value; but for the key
"Wolverhampton Wanderers" (mapped value "Wolves") the resolver returns the
alias-table canonical name "Wolverhampton Wanderers", not "Wolves". -/
theorem soccer_resolver_value_counterexample :
    lookupStr SOCCER_TEAM_MAPPING "Wolverhampton Wanderers" = some "Wolves" ∧
    fuzzy_match_soccer_team (fun _ _ => 0) 75 "Wolverhampton Wanderers" =
      (some "Wolverhampton Wanderers", 100) ∧
    ("Wolverhampton Wanderers" : String) ≠ "Wolves" :=
  ⟨by decide, by decide, by decide⟩

/-- C3 (amended): for every entry of the strict dictionary, resolving the key
and resolving the value both return confidence 100 (for any fuzzy scorer, since
the exact stages fire first); the returned name, however, is the alias-table
canonical name — or the input itself when the alias table misses — not in
general the dictionary's mapped value. -/
theorem soccer_mapping_resolves_conf100 (scorer : String → String → ℕ)
    (kv : String × String) (h : kv ∈ SOCCER_TEAM_MAPPING) :
    (fuzzy_match_soccer_team scorer 75 kv.1).2 = 100 ∧
    (fuzzy_match_soccer_team scorer 75 kv.2).2 = 100 := by
  have htrim := List.all_eq_true.mp soccer_mapping_strip_id kv h
  have h1 : pyStrip kv.1 = kv.1 := beq_iff_eq.mp (Bool.and_eq_true_iff.mp htrim).1
  have h2 : pyStrip kv.2 = kv.2 := beq_iff_eq.mp (Bool.and_eq_true_iff.mp htrim).2
  constructor
  · have hs := lookupStr_isSome_of_mem _ kv h
    obtain ⟨v, hv⟩ := Option.isSome_iff_exists.mp hs
    exact fmst_conf_of_strict scorer 75 kv.1 v (by rw [h1]; exact hv)
  · by_cases hvk : (lookupStr SOCCER_TEAM_MAPPING (pyStrip kv.2)).isSome
    · obtain ⟨v, hv⟩ := Option.isSome_iff_exists.mp hvk
      exact fmst_conf_of_strict scorer 75 kv.2 v hv
    · have hnone : lookupStr SOCCER_TEAM_MAPPING (pyStrip kv.2) = none :=
        Option.not_isSome_iff_eq_none.mp hvk
      have hrev : (lookupStr SOCCER_TEAM_MAPPING_REVERSE (pyStrip kv.2)).isSome := by
        rw [h2]
        exact lookupStr_revFold_isSome SOCCER_TEAM_MAPPING kv.2 [] (Or.inl ⟨kv, h, rfl⟩)
      obtain ⟨o, ho⟩ := Option.isSome_iff_exists.mp hrev
      exact fmst_conf_of_reverse scorer 75 kv.2 o hnone ho

set_option maxRecDepth 10000 in
/-- C3 witness: the amended confidence-100 theorem at the concrete entry
("Wolverhampton Wanderers", "Wolves"). -/
theorem soccer_mapping_resolves_conf100_witness :
    (fuzzy_match_soccer_team (fun _ _ => 0) 75 "Wolverhampton Wanderers").2 = 100 ∧
    (fuzzy_match_soccer_team (fun _ _ => 0) 75 "Wolves").2 = 100 :=
  soccer_mapping_resolves_conf100 (fun _ _ => 0) ("Wolverhampton Wanderers", "Wolves")
    (by decide)

/-- C4 (confirmed): with the default threshold 75 and any scorer, once the
exact stages miss, both resolvers return the fuzzy scan's best candidate with
its score when that best score is exactly 75, and return (null, 0) whenever the
best score is strictly below 75 — never guessing below the threshold and (being
total functions) never raising on an unmatched name. -/
theorem fuzzy_threshold_gate (scorer : String → String → ℕ) (nameN nameS : String)
    (hN : exactAliasHit NBA_TEAM_ALIASES (pyStrip (strLower nameN)) = none)
    (hS1 : lookupStr SOCCER_TEAM_MAPPING (pyStrip nameS) = none)
    (hS2 : lookupStr SOCCER_TEAM_MAPPING_REVERSE (pyStrip nameS) = none)
    (hS3 : exactAliasHit SOCCER_TEAM_ALIASES (strLower (pyStrip nameS)) = none) :
    ((nbaFuzzScan scorer (pyStrip (strLower nameN))).2 = 75 →
      fuzzy_match_team scorer 75 nameN = nbaFuzzScan scorer (pyStrip (strLower nameN))) ∧
    ((nbaFuzzScan scorer (pyStrip (strLower nameN))).2 < 75 →
      fuzzy_match_team scorer 75 nameN = (none, 0)) ∧
    ((soccerFuzzScan scorer (strLower (pyStrip nameS))).2 = 75 →
      fuzzy_match_soccer_team scorer 75 nameS =
        soccerFuzzScan scorer (strLower (pyStrip nameS))) ∧
    ((soccerFuzzScan scorer (strLower (pyStrip nameS))).2 < 75 →
      fuzzy_match_soccer_team scorer 75 nameS = (none, 0)) := by
  refine ⟨?_, ?_, ?_, ?_⟩
  · intro h75
    unfold fuzzy_match_team
    simp only [hN]
    rw [if_pos (by rw [h75])]
  · intro hlt
    unfold fuzzy_match_team
    simp only [hN]
    rw [if_neg (by omega)]
  · intro h75
    unfold fuzzy_match_soccer_team
    simp only [hS1, hS2, hS3]
    rw [if_pos (by rw [h75])]
  · intro hlt
    unfold fuzzy_match_soccer_team
    simp only [hS1, hS2, hS3]
    rw [if_neg (by omega)]

set_option maxRecDepth 10000 in
/-- C4 witness: the threshold-gate theorem at the unmatched name "zz" with a
constant scorer of exactly 75 for the equality parts (and the strictly-below
implications holding vacuously or by the same instantiation). -/
theorem fuzzy_threshold_gate_witness :
    ((nbaFuzzScan (fun _ _ => 75) (pyStrip (strLower "zz"))).2 = 75 →
      fuzzy_match_team (fun _ _ => 75) 75 "zz" =
        nbaFuzzScan (fun _ _ => 75) (pyStrip (strLower "zz"))) ∧
    ((nbaFuzzScan (fun _ _ => 75) (pyStrip (strLower "zz"))).2 < 75 →
      fuzzy_match_team (fun _ _ => 75) 75 "zz" = (none, 0)) ∧
    ((soccerFuzzScan (fun _ _ => 75) (strLower (pyStrip "zz"))).2 = 75 →
      fuzzy_match_soccer_team (fun _ _ => 75) 75 "zz" =
        soccerFuzzScan (fun _ _ => 75) (strLower (pyStrip "zz"))) ∧
    ((soccerFuzzScan (fun _ _ => 75) (strLower (pyStrip "zz"))).2 < 75 →
      fuzzy_match_soccer_team (fun _ _ => 75) 75 "zz" = (none, 0)) :=
  fuzzy_threshold_gate (fun _ _ => 75) "zz" "zz"
    (by decide) (by decide) (by decide) (by decide)

/-- One outcome of a The Odds API market (name and decimal price, both
possibly missing). -/
structure Outcome where
  name : Option String
  price : Option ℚ
deriving DecidableEq

/-- One market of a bookmaker ("outrights" or "h2h"). -/
structure Market where
  key : String
  outcomes : List Outcome
deriving DecidableEq

/-- One bookmaker block of an event. -/
structure BookmakerBlock where
  key : String
  title : String
  markets : List Market
deriving DecidableEq

/-- One The Odds API event. -/
structure OddsEvent where
  id : Option String
  home_team : Option String
  away_team : Option String
  commence_time : Option String
  bookmakers : List BookmakerBlock
deriving DecidableEq

/-- One collected implied-probability quote with its bookmaker provenance. -/
structure ProbEntry where
  prob : ℚ
  key : String
  title : String
deriving DecidableEq

/-- Append a quote to its team's group in the insertion-ordered collection
(`team_odds_collection[standard_name].append(...)`). -/
def addQuote : List (String × List ProbEntry) → String → ProbEntry →
    List (String × List ProbEntry)
  | [], t, e => [(t, [e])]
  | (t', es) :: rest, t, e =>
    if t' = t then (t', es ++ [e]) :: rest else (t', es) :: addQuote rest t e

/-- Per-outcome step of `process_web2_data`: Python-truthy team and price,
decimal odds must exceed 1, the name is standardized, and any quote implying a
win probability above 60% is skipped (`if implied_prob > 0.60: continue`). -/
def outrightOutcomeStep (bkKey bkTitle : String)
    (acc : List (String × List ProbEntry)) (o : Outcome) :
    List (String × List ProbEntry) :=
  match o.name, o.price with
  | some team, some odds =>
    if team ≠ "" ∧ odds ≠ 0 ∧ 1 < odds then
      match standardize_name team "web2" with
      | some std =>
        if std ≠ "" then
          let impliedProb := 1 / odds
          if 3/5 < impliedProb then acc
          else addQuote acc std ⟨impliedProb, bkKey, bkTitle⟩
        else acc
      | none => acc
    else acc
  | _, _ => acc

/-- Per-market step of `process_web2_data` (only "outrights" markets). -/
def outrightMarketStep (bkKey bkTitle : String)
    (acc : List (String × List ProbEntry)) (mkt : Market) :
    List (String × List ProbEntry) :=
  if mkt.key = "outrights" then
    mkt.outcomes.foldl (outrightOutcomeStep bkKey bkTitle) acc
  else acc

/-- Per-bookmaker step of `process_web2_data`. -/
def outrightBkStep (acc : List (String × List ProbEntry)) (bk : BookmakerBlock) :
    List (String × List ProbEntry) :=
  bk.markets.foldl (outrightMarketStep bk.key bk.title) acc

/-- Per-event step of `process_web2_data`. -/
def outrightEventStep (acc : List (String × List ProbEntry)) (ev : OddsEvent) :
    List (String × List ProbEntry) :=
  ev.bookmakers.foldl outrightBkStep acc

/-- The quote-collection phase of `process_web2_data`. -/
def collectOutrights (data : List OddsEvent) : List (String × List ProbEntry) :=
  data.foldl outrightEventStep []

/-- The outrights preferred-bookmaker allow-list from `process_web2_data`. -/
def PREFERRED_BOOKMAKERS_OUTRIGHTS : List String :=
  ["draftkings", "fanduel", "betmgm", "pinnacle",
   "williamhill", "caesars", "pointsbet", "betrivers"]

/-- Average implied probability of a quote group. -/
def avgProb (es : List ProbEntry) : ℚ := (es.map (·.prob)).sum / es.length

/-- The per-team averaging phase of `process_web2_data`: average only the
preferred-bookmaker quotes when any exist, else all quotes. -/
def teamDataOf (col : List (String × List ProbEntry)) : List (String × ℚ) :=
  col.map (fun te =>
    let preferred := te.2.filter (fun e => PREFERRED_BOOKMAKERS_OUTRIGHTS.contains e.key)
    (te.1, if preferred ≠ [] then avgProb preferred else avgProb te.2))

/-- process_web2_data from `scraper.py` (outrights): collect, average, then
de-vig by dividing each average by the total and rounding to 4 decimals
(`round(devigged_prob, 4)`); an empty team collection yields the empty map.
The bookmaker display/URL provenance fields are carried by `ProbEntry` but the
returned map keeps, as in the source's `team_data[team]["odds"]`, only the
de-vigged probability per standardized team name. -/
def process_web2_data (data : List OddsEvent) : List (String × ℚ) :=
  let td := teamDataOf (collectOutrights data)
  if td = [] then td
  else
    let total := (td.map (·.2)).sum
    td.map (fun tp => (tp.1, round4 (tp.2 / total)))

/-- The outcome scan of the NBA h2h path: later outcomes with the same name
overwrite earlier ones, home first, away on the `elif`. -/
def parseH2HPrices (home away : String) (outs : List Outcome) :
    Option ℚ × Option ℚ :=
  outs.foldl (fun pr o =>
    if o.name = some home then (o.price, pr.2)
    else if o.name = some away then (pr.1, o.price)
    else pr) (none, none)

/-- Per-market step of the NBA h2h quote collection: both sides must be truthy
and strictly above 1, else the whole home/away pair of that market is skipped. -/
def h2hMarketStep (home away bkKey bkTitle : String)
    (acc : List ProbEntry × List ProbEntry) (mkt : Market) :
    List ProbEntry × List ProbEntry :=
  if mkt.key = "h2h" then
    match parseH2HPrices home away mkt.outcomes with
    | (some h, some a) =>
      if h ≠ 0 ∧ a ≠ 0 ∧ 1 < h ∧ 1 < a then
        (acc.1 ++ [⟨1/h, bkKey, bkTitle⟩], acc.2 ++ [⟨1/a, bkKey, bkTitle⟩])
      else acc
    | _ => acc
  else acc

/-- Per-bookmaker step of the NBA h2h quote collection. -/
def h2hBkStep (home away : String) (acc : List ProbEntry × List ProbEntry)
    (bk : BookmakerBlock) : List ProbEntry × List ProbEntry :=
  bk.markets.foldl (h2hMarketStep home away bk.key bk.title) acc

/-- The quote collection of `fetch_nba_matches_web2` for one event. -/
def collectH2H (home away : String) (bks : List BookmakerBlock) :
    List ProbEntry × List ProbEntry :=
  bks.foldl (h2hBkStep home away) ([], [])

/-- The NBA preferred-bookmaker allow-list from `fetch_nba_matches_web2`. -/
def PREFERRED_BOOKMAKERS_NBA : List String :=
  ["draftkings", "fanduel", "betmgm", "pinnacle"]

/-- The preferred-average selection of `fetch_nba_matches_web2` (average of the
preferred quotes if any, else of all quotes; the representative bookmaker key
is the first of the list averaged). -/
def nbaAvgs (hl al : List ProbEntry) : ℚ × ℚ × String :=
  let ph := hl.filter (fun e => PREFERRED_BOOKMAKERS_NBA.contains e.key)
  let pa := al.filter (fun e => PREFERRED_BOOKMAKERS_NBA.contains e.key)
  if ph ≠ [] then (avgProb ph, avgProb pa, ((ph.head?).map (·.key)).getD "")
  else (avgProb hl, avgProb al, ((hl.head?).map (·.key)).getD "")

/-- One merged NBA daily-match record of `fetch_nba_matches_web2`. -/
structure NbaW2Match where
  match_id : String
  home_team : String
  away_team : String
  commence_time : String
  home_odds : ℚ
  away_odds : ℚ
  bookmaker_key : String
deriving DecidableEq

/-- Per-event processing of `fetch_nba_matches_web2`: required fields must all
be truthy, at least one bookmaker pair must have been collected, then the
2-way multiplicative de-vig divides each averaged side by their total and the
results are stored rounded to 4 decimals. -/
def nbaEventMatch (ev : OddsEvent) : Option NbaW2Match :=
  match ev.id, ev.home_team, ev.away_team, ev.commence_time with
  | some mid, some home, some away, some ct =>
    if mid ≠ "" ∧ home ≠ "" ∧ away ≠ "" ∧ ct ≠ "" then
      let hla := collectH2H home away ev.bookmakers
      if hla.1 = [] then none
      else
        let avgs := nbaAvgs hla.1 hla.2
        let total := avgs.1 + avgs.2.1
        some ⟨mid, home, away, ct, round4 (avgs.1 / total), round4 (avgs.2.1 / total),
          avgs.2.2⟩
    else none
  | _, _, _, _ => none

/-- fetch_nba_matches_web2 from `scraper.py`, applied to the fetched events. -/
def fetch_nba_matches_web2 (events : List OddsEvent) : List NbaW2Match :=
  events.filterMap nbaEventMatch

/-- The outcome scan of the soccer 3-way path: home and away by exact name,
draw by lower-cased name "draw" (outcomes with a missing name are skipped). -/
def parseH2H3Prices (home away : String) (outs : List Outcome) :
    Option ℚ × Option ℚ × Option ℚ :=
  outs.foldl (fun pr o =>
    match o.name with
    | some n =>
      if n = home then (o.price, pr.2.1, pr.2.2)
      else if n = away then (pr.1, pr.2.1, o.price)
      else if strLower n = "draw" then (pr.1, o.price, pr.2.2)
      else pr
    | none => pr) (none, none, none)

/-- Per-market step of the soccer 3-way quote collection: all three sides must
be truthy and strictly above 1, else the whole home/draw/away triple of that
market is skipped. -/
def h2h3MarketStep (home away bkKey bkTitle : String)
    (acc : List ProbEntry × List ProbEntry × List ProbEntry) (mkt : Market) :
    List ProbEntry × List ProbEntry × List ProbEntry :=
  if mkt.key = "h2h" then
    match parseH2H3Prices home away mkt.outcomes with
    | (some h, some d, some a) =>
      if h ≠ 0 ∧ d ≠ 0 ∧ a ≠ 0 ∧ 1 < h ∧ 1 < d ∧ 1 < a then
        (acc.1 ++ [⟨1/h, bkKey, bkTitle⟩],
         acc.2.1 ++ [⟨1/d, bkKey, bkTitle⟩],
         acc.2.2 ++ [⟨1/a, bkKey, bkTitle⟩])
      else acc
    | _ => acc
  else acc

/-- Per-bookmaker step of the soccer 3-way quote collection. -/
def h2h3BkStep (home away : String)
    (acc : List ProbEntry × List ProbEntry × List ProbEntry) (bk : BookmakerBlock) :
    List ProbEntry × List ProbEntry × List ProbEntry :=
  bk.markets.foldl (h2h3MarketStep home away bk.key bk.title) acc

/-- The quote collection of `fetch_soccer_matches_web2` for one event. -/
def collectH2H3 (home away : String) (bks : List BookmakerBlock) :
    List ProbEntry × List ProbEntry × List ProbEntry :=
  bks.foldl (h2h3BkStep home away) ([], [], [])

/-- The soccer preferred-bookmaker allow-list from `fetch_soccer_matches_web2`. -/
def PREFERRED_BOOKMAKERS_SOCCER : List String :=
  ["pinnacle", "bet365", "williamhill", "unibet", "betfair_ex_eu"]

/-- The preferred-average selection of `fetch_soccer_matches_web2`. -/
def socAvgs (hl dl al : List ProbEntry) : ℚ × ℚ × ℚ × String :=
  let ph := hl.filter (fun e => PREFERRED_BOOKMAKERS_SOCCER.contains e.key)
  let pd := dl.filter (fun e => PREFERRED_BOOKMAKERS_SOCCER.contains e.key)
  let pa := al.filter (fun e => PREFERRED_BOOKMAKERS_SOCCER.contains e.key)
  if ph ≠ [] then
    (avgProb ph, avgProb pd, avgProb pa, ((ph.head?).map (·.key)).getD "")
  else (avgProb hl, avgProb dl, avgProb al, ((hl.head?).map (·.key)).getD "")

/-- One merged soccer daily-match record of `fetch_soccer_matches_web2`. -/
structure SocW2Match where
  match_id : String
  home_team : String
  away_team : String
  commence_time : String
  home_odds : ℚ
  draw_odds : ℚ
  away_odds : ℚ
  bookmaker_key : String
deriving DecidableEq

/-- Per-event processing of `fetch_soccer_matches_web2`: the 3-way
multiplicative de-vig divides each averaged side by the three-way total, the
results stored rounded to 4 decimals. -/
def socEventMatch (ev : OddsEvent) : Option SocW2Match :=
  match ev.id, ev.home_team, ev.away_team, ev.commence_time with
  | some mid, some home, some away, some ct =>
    if mid ≠ "" ∧ home ≠ "" ∧ away ≠ "" ∧ ct ≠ "" then
      let col := collectH2H3 home away ev.bookmakers
      if col.1 = [] then none
      else
        let avgs := socAvgs col.1 col.2.1 col.2.2
        let total := avgs.1 + avgs.2.1 + avgs.2.2.1
        some ⟨mid, home, away, ct, round4 (avgs.1 / total), round4 (avgs.2.1 / total),
          round4 (avgs.2.2.1 / total), avgs.2.2.2⟩
    else none
  | _, _, _, _ => none

/-- fetch_soccer_matches_web2 from `scraper.py`, applied to fetched events. -/
def fetch_soccer_matches_web2 (events : List OddsEvent) : List SocW2Match :=
  events.filterMap socEventMatch

/-- Python's integer rounding is within one half of the argument. -/
theorem pyRoundInt_err (x : ℚ) : |(pyRoundInt x : ℚ) - x| ≤ 1/2 := by
  unfold pyRoundInt
  have h0 : (⌊x⌋ : ℚ) ≤ x := Int.floor_le x
  have h1 : x < ⌊x⌋ + 1 := Int.lt_floor_add_one x
  by_cases hr : x - ⌊x⌋ < 1/2
  · rw [if_pos hr, abs_le]
    constructor <;> linarith
  · rw [if_neg hr]
    by_cases hr2 : 1/2 < x - ⌊x⌋
    · rw [if_pos hr2]
      rw [abs_le]
      push_cast
      constructor <;> linarith
    · rw [if_neg hr2]
      by_cases hpar : ⌊x⌋ % 2 = 0
      · rw [if_pos hpar, abs_le]
        constructor <;> linarith
      · rw [if_neg hpar, abs_le]
        push_cast
        constructor <;> linarith

/-- Rounding to 4 decimals moves a rational by at most `1/20000`. -/
theorem round4_err (q : ℚ) : |round4 q - q| ≤ 1/20000 := by
  have h := pyRoundInt_err (q * 10000)
  rw [abs_le] at h ⊢
  unfold round4
  constructor
  · linarith [h.1]
  · linarith [h.2]

/-- Evaluation rule for `round4` when the scaled value sits strictly below the
half-way point above `n`. -/
theorem round4_eq_of_lt_half (q : ℚ) (n : ℤ)
    (h1 : (n : ℚ) ≤ q * 10000) (h2 : q * 10000 < n + 1/2) :
    round4 q = (n : ℚ) / 10000 := by
  have hfl : ⌊q * 10000⌋ = n := by
    rw [Int.floor_eq_iff]
    · exact ⟨h1, by linarith⟩
  have : pyRoundInt (q * 10000) = n := by
    unfold pyRoundInt
    rw [hfl, if_pos (by linarith)]
  rw [round4, this]

/-- Summing a list divided pointwise equals the divided sum. -/
theorem list_sum_div (l : List ℚ) (c : ℚ) :
    (l.map (· / c)).sum = l.sum / c := by
  induction l with
  | nil => simp
  | cons a t ih => simp [ih, add_div]

/-- Summing rounded values stays within `1/20000` per element of the sum of
the unrounded values. -/
theorem list_sum_round4_err (l : List ℚ) :
    |(l.map round4).sum - l.sum| ≤ l.length * (1/20000) := by
  induction l with
  | nil => simp
  | cons a t ih =>
    have ha := round4_err a
    rw [abs_le] at ha ih ⊢
    simp only [List.map_cons, List.sum_cons, List.length_cons]
    push_cast
    constructor <;> nlinarith [ha.1, ha.2, ih.1, ih.2]

/-- Concrete 3-way event: one non-preferred bookmaker quoting decimal odds 3.0
on home, away and draw. -/
def evC1 : OddsEvent :=
  ⟨some "m1", some "H", some "A", some "t",
   [⟨"bk", "BK", [⟨"h2h", [⟨some "H", some 3⟩, ⟨some "A", some 3⟩, ⟨some "Draw", some 3⟩]⟩]⟩]⟩

/-- C1 (counterexample): on a 3-way market with equal odds 3.0/3.0/3.0, the
stored de-vigged probabilities (rounded to 4 decimals by the code) are 0.3333
each, whose sum 0.9999 misses 1.0 by 1e-4 — far outside the claimed 1e-6. -/
theorem threeway_devig_sum_counterexample :
    socEventMatch evC1 =
      some ⟨"m1", "H", "A", "t", 3333/10000, 3333/10000, 3333/10000, "bk"⟩ ∧
    ((3333:ℚ)/10000 + 3333/10000 + 3333/10000 = 9999/10000) ∧
    ¬(|(9999/10000 : ℚ) - 1| ≤ 1/1000000) := by
  have hparse : parseH2H3Prices "H" "A"
      [⟨some "H", some 3⟩, ⟨some "A", some 3⟩, ⟨some "Draw", some 3⟩] =
      (some 3, some 3, some 3) := by decide
  have hcol : collectH2H3 "H" "A"
      [⟨"bk", "BK", [⟨"h2h", [⟨some "H", some 3⟩, ⟨some "A", some 3⟩, ⟨some "Draw", some 3⟩]⟩]⟩] =
      ([⟨(3:ℚ)⁻¹, "bk", "BK"⟩], [⟨(3:ℚ)⁻¹, "bk", "BK"⟩], [⟨(3:ℚ)⁻¹, "bk", "BK"⟩]) := by
    norm_num [collectH2H3, h2h3BkStep, h2h3MarketStep, hparse]
  have hfilt : ([⟨(3:ℚ)⁻¹, "bk", "BK"⟩] : List ProbEntry).filter
      (fun e => PREFERRED_BOOKMAKERS_SOCCER.contains e.key) = [] := by decide
  have havg : socAvgs [⟨(3:ℚ)⁻¹, "bk", "BK"⟩] [⟨(3:ℚ)⁻¹, "bk", "BK"⟩] [⟨(3:ℚ)⁻¹, "bk", "BK"⟩] =
      ((3:ℚ)⁻¹, (3:ℚ)⁻¹, (3:ℚ)⁻¹, "bk") := by
    simp only [socAvgs, hfilt, ne_eq, not_true_eq_false, if_false, ite_false]
    norm_num [avgProb]
  have hr : round4 ((3:ℚ)⁻¹ / ((3:ℚ)⁻¹ + (3:ℚ)⁻¹ + (3:ℚ)⁻¹)) = 3333/10000 := by
    have h := round4_eq_of_lt_half ((3:ℚ)⁻¹ / ((3:ℚ)⁻¹ + (3:ℚ)⁻¹ + (3:ℚ)⁻¹)) 3333
      (by norm_num) (by norm_num)
    rw [h]; norm_num
  refine ⟨?_, by norm_num, ?_⟩
  · simp [socEventMatch, evC1, hcol, havg, hr]
  · rw [show (9999/10000 : ℚ) - 1 = -(1/10000) by norm_num, abs_neg,
      abs_of_pos (by norm_num)]
    norm_num

/-- Dividing a positively-summing list by its own sum yields a unit sum. -/
theorem sum_div_self_eq_one (l : List ℚ) (hS : 0 < l.sum) :
    (l.map (· / l.sum)).sum = 1 := by
  rw [list_sum_div]
  exact div_self (ne_of_gt hS)

/-- Two rounded complementary probabilities sum to 1 within `2/20000`. -/
theorem two_round4_sum (x y : ℚ) (hxy : x + y = 1) :
    |round4 x + round4 y - 1| ≤ 2 * (1/20000) := by
  have hx := round4_err x
  have hy := round4_err y
  rw [abs_le] at hx hy ⊢
  constructor <;> linarith [hx.1, hx.2, hy.1, hy.2]

/-- Three rounded probabilities of a unit total sum to 1 within `3/20000`. -/
theorem three_round4_sum (x y z : ℚ) (hxyz : x + y + z = 1) :
    |round4 x + round4 y + round4 z - 1| ≤ 3 * (1/20000) := by
  have hx := round4_err x
  have hy := round4_err y
  have hz := round4_err z
  rw [abs_le] at hx hy hz ⊢
  constructor <;> linarith [hx.1, hx.2, hy.1, hy.2, hz.1, hz.2]

/-- C1 (amended): whenever the total averaged implied probability is positive,
the de-vig division produces probabilities summing to exactly 1 before the
4-decimal rounding on all three paths (N-way outrights, 2-way NBA, 3-way
soccer); the stored rounded values sum to 1 only within `1/20000` per outcome
(`N/20000` for the outrights map, `2/20000` for 2-way, `3/20000` for 3-way),
which is the sharpest uniform guarantee — not within 1e-6, as the 3-way
counterexample shows. -/
theorem devig_normalization_amended
    (data : List OddsEvent) (hl al hl3 dl3 al3 : List ProbEntry)
    (h a : ℚ) (bkN : String) (h3 d3 a3 : ℚ) (bkS : String)
    (_hA : nbaAvgs hl al = (h, a, bkN))
    (_hS : socAvgs hl3 dl3 al3 = (h3, d3, a3, bkS))
    (hT0 : 0 < ((teamDataOf (collectOutrights data)).map (·.2)).sum)
    (hTn : 0 < h + a) (hTs : 0 < h3 + d3 + a3) :
    (((teamDataOf (collectOutrights data)).map (·.2)).map
        (· / ((teamDataOf (collectOutrights data)).map (·.2)).sum)).sum = 1 ∧
    |((process_web2_data data).map (·.2)).sum - 1| ≤
      (teamDataOf (collectOutrights data)).length * (1/20000) ∧
    h / (h + a) + a / (h + a) = 1 ∧
    |round4 (h / (h + a)) + round4 (a / (h + a)) - 1| ≤ 2 * (1/20000) ∧
    h3 / (h3 + d3 + a3) + d3 / (h3 + d3 + a3) + a3 / (h3 + d3 + a3) = 1 ∧
    |round4 (h3 / (h3 + d3 + a3)) + round4 (d3 / (h3 + d3 + a3)) +
        round4 (a3 / (h3 + d3 + a3)) - 1| ≤ 3 * (1/20000) := by
  have hone := sum_div_self_eq_one ((teamDataOf (collectOutrights data)).map (·.2)) hT0
  have hne : teamDataOf (collectOutrights data) ≠ [] := by
    intro hnil
    rw [hnil] at hT0
    simp at hT0
  have hpw : process_web2_data data =
      (teamDataOf (collectOutrights data)).map
        (fun tp => (tp.1, round4 (tp.2 / ((teamDataOf (collectOutrights data)).map (·.2)).sum))) := by
    simp only [process_web2_data]
    rw [if_neg hne]
  have h2way : h / (h + a) + a / (h + a) = 1 := by
    rw [div_add_div_same, div_self (ne_of_gt hTn)]
  have h3way : h3 / (h3 + d3 + a3) + d3 / (h3 + d3 + a3) + a3 / (h3 + d3 + a3) = 1 := by
    rw [div_add_div_same, div_add_div_same, div_self (ne_of_gt hTs)]
  refine ⟨hone, ?_, h2way, two_round4_sum _ _ h2way, h3way, three_round4_sum _ _ _ h3way⟩
  have hmaps : ((process_web2_data data).map (·.2)) =
      ((((teamDataOf (collectOutrights data)).map (·.2)).map
        (· / ((teamDataOf (collectOutrights data)).map (·.2)).sum)).map round4) := by
    rw [hpw]
    simp [List.map_map, Function.comp]
  rw [hmaps]
  have herr := list_sum_round4_err
    (((teamDataOf (collectOutrights data)).map (·.2)).map
      (· / ((teamDataOf (collectOutrights data)).map (·.2)).sum))
  rw [hone] at herr
  simpa using herr

/-- Concrete outrights batch for the C1 witness: two unmapped entrants at
decimal odds 2.0 from one non-preferred bookmaker. -/
def dataC1w : List OddsEvent :=
  [⟨some "m2", none, none, some "t",
    [⟨"bk", "BK", [⟨"outrights", [⟨some "Qa", some 2⟩, ⟨some "Qb", some 2⟩]⟩]⟩]⟩]

set_option maxRecDepth 20000 in
/-- C1 witness: the amended de-vig theorem at the concrete outrights batch and
at concrete 2-way (1/2, 1/2) and 3-way (1/3, 1/3, 1/3) average quote lists. -/
theorem devig_normalization_amended_witness :
    (((teamDataOf (collectOutrights dataC1w)).map (·.2)).map
        (· / ((teamDataOf (collectOutrights dataC1w)).map (·.2)).sum)).sum = 1 ∧
    |((process_web2_data dataC1w).map (·.2)).sum - 1| ≤
      (teamDataOf (collectOutrights dataC1w)).length * (1/20000) ∧
    (1:ℚ)/2 / (1/2 + 1/2) + 1/2 / (1/2 + 1/2) = 1 ∧
    |round4 ((1:ℚ)/2 / (1/2 + 1/2)) + round4 ((1:ℚ)/2 / (1/2 + 1/2)) - 1| ≤ 2 * (1/20000) ∧
    (1:ℚ)/3 / (1/3 + 1/3 + 1/3) + 1/3 / (1/3 + 1/3 + 1/3) + 1/3 / (1/3 + 1/3 + 1/3) = 1 ∧
    |round4 ((1:ℚ)/3 / (1/3 + 1/3 + 1/3)) + round4 ((1:ℚ)/3 / (1/3 + 1/3 + 1/3)) +
        round4 ((1:ℚ)/3 / (1/3 + 1/3 + 1/3)) - 1| ≤ 3 * (1/20000) := by
  have hstdX : standardize_name "Qa" "web2" = some "Qa" := by decide
  have hstdY : standardize_name "Qb" "web2" = some "Qb" := by decide
  have hcol : collectOutrights dataC1w =
      [("Qa", [⟨(2:ℚ)⁻¹, "bk", "BK"⟩]), ("Qb", [⟨(2:ℚ)⁻¹, "bk", "BK"⟩])] := by
    norm_num [collectOutrights, outrightEventStep, outrightBkStep, outrightMarketStep,
      outrightOutcomeStep, dataC1w, hstdX, hstdY, addQuote]
    simp
  have hfilt : ([⟨(2:ℚ)⁻¹, "bk", "BK"⟩] : List ProbEntry).filter
      (fun e => PREFERRED_BOOKMAKERS_OUTRIGHTS.contains e.key) = [] := by decide
  have htd : teamDataOf [("Qa", [⟨(2:ℚ)⁻¹, "bk", "BK"⟩]), ("Qb", [⟨(2:ℚ)⁻¹, "bk", "BK"⟩])] =
      [("Qa", (2:ℚ)⁻¹), ("Qb", (2:ℚ)⁻¹)] := by
    simp only [teamDataOf, List.map_cons, List.map_nil, hfilt, ne_eq,
      not_true_eq_false, if_false, ite_false]
    norm_num [avgProb]
  have hfiltN : ([⟨(1:ℚ)/2, "bk", "BK"⟩] : List ProbEntry).filter
      (fun e => PREFERRED_BOOKMAKERS_NBA.contains e.key) = [] := by decide
  have hA : nbaAvgs [⟨(1:ℚ)/2, "bk", "BK"⟩] [⟨(1:ℚ)/2, "bk", "BK"⟩] = (1/2, 1/2, "bk") := by
    simp only [nbaAvgs, hfiltN, ne_eq, not_true_eq_false, if_false, ite_false]
    norm_num [avgProb]
  have hfiltS : ([⟨(1:ℚ)/3, "bk", "BK"⟩] : List ProbEntry).filter
      (fun e => PREFERRED_BOOKMAKERS_SOCCER.contains e.key) = [] := by decide
  have hSw : socAvgs [⟨(1:ℚ)/3, "bk", "BK"⟩] [⟨(1:ℚ)/3, "bk", "BK"⟩] [⟨(1:ℚ)/3, "bk", "BK"⟩] =
      (1/3, 1/3, 1/3, "bk") := by
    simp only [socAvgs, hfiltS, ne_eq, not_true_eq_false, if_false, ite_false]
    norm_num [avgProb]
  exact devig_normalization_amended dataC1w
    [⟨(1:ℚ)/2, "bk", "BK"⟩] [⟨(1:ℚ)/2, "bk", "BK"⟩]
    [⟨(1:ℚ)/3, "bk", "BK"⟩] [⟨(1:ℚ)/3, "bk", "BK"⟩] [⟨(1:ℚ)/3, "bk", "BK"⟩]
    (1/2) (1/2) "bk" (1/3) (1/3) (1/3) "bk" hA hSw
    (by rw [hcol, htd]; norm_num) (by norm_num) (by norm_num)

/-- Folding over a list with an element on which the step is the identity
equals folding with that element removed. -/
theorem foldl_middle_id {α β : Type} (f : β → α → β) (l1 l2 : List α) (x : α)
    (hx : ∀ b, f b x = b) (init : β) :
    (l1 ++ x :: l2).foldl f init = (l1 ++ l2).foldl f init := by
  simp [List.foldl_append, hx]

/-- Folding is unchanged when one element is replaced by another on which the
step agrees. -/
theorem foldl_middle_congr {α β : Type} (f : β → α → β) (l1 l2 : List α) (x y : α)
    (hxy : ∀ b, f b x = f b y) (init : β) :
    (l1 ++ x :: l2).foldl f init = (l1 ++ y :: l2).foldl f init := by
  simp [List.foldl_append, hxy]

/-- A quote whose decimal odds are at most 1, or whose implied probability
exceeds the 60% futures cutoff, contributes nothing to the outrights
collection step. -/
theorem outrightOutcomeStep_id (bkKey bkTitle : String) (o : Outcome) (d : ℚ)
    (hprice : o.price = some d) (hdrop : d ≤ 1 ∨ (1 < d ∧ 3/5 < 1/d)) :
    ∀ acc, outrightOutcomeStep bkKey bkTitle acc o = acc := by
  intro acc
  cases hn : o.name with
  | none => simp [outrightOutcomeStep, hprice, hn]
  | some team =>
    simp only [outrightOutcomeStep, hprice, hn]
    rcases hdrop with hle | ⟨-, hip⟩
    · rw [if_neg]
      rintro ⟨-, -, hgt⟩
      linarith
    · by_cases hc : team ≠ "" ∧ d ≠ 0 ∧ 1 < d
      · rw [if_pos hc]
        cases hstd : standardize_name team "web2" with
        | none => simp only [hstd]
        | some std =>
          simp only [hstd]
          by_cases hs : std ≠ ""
          · rw [if_pos hs, if_pos hip]
          · rw [if_neg hs]
      · rw [if_neg hc]

/-- Deleting one outcome on which the step is the identity from one outrights
market leaves the whole `process_web2_data` result unchanged. -/
theorem process_web2_data_drop_outcome
    (data1 data2 : List OddsEvent) (eid eh ea ect : Option String)
    (bks1 bks2 : List BookmakerBlock) (bkKey bkTitle : String)
    (mkts1 mkts2 : List Market) (pre post : List Outcome) (o : Outcome)
    (hstep : ∀ acc, outrightOutcomeStep bkKey bkTitle acc o = acc) :
    process_web2_data (data1 ++
      ⟨eid, eh, ea, ect,
        bks1 ++ ⟨bkKey, bkTitle, mkts1 ++ ⟨"outrights", pre ++ o :: post⟩ :: mkts2⟩ :: bks2⟩ ::
      data2) =
    process_web2_data (data1 ++
      ⟨eid, eh, ea, ect,
        bks1 ++ ⟨bkKey, bkTitle, mkts1 ++ ⟨"outrights", pre ++ post⟩ :: mkts2⟩ :: bks2⟩ ::
      data2) := by
  have hm : ∀ acc, outrightMarketStep bkKey bkTitle acc ⟨"outrights", pre ++ o :: post⟩ =
      outrightMarketStep bkKey bkTitle acc ⟨"outrights", pre ++ post⟩ := by
    intro acc
    unfold outrightMarketStep
    simp only [if_pos rfl]
    exact foldl_middle_id _ pre post o hstep acc
  have hbk : ∀ acc,
      outrightBkStep acc ⟨bkKey, bkTitle, mkts1 ++ ⟨"outrights", pre ++ o :: post⟩ :: mkts2⟩ =
      outrightBkStep acc ⟨bkKey, bkTitle, mkts1 ++ ⟨"outrights", pre ++ post⟩ :: mkts2⟩ := by
    intro acc
    unfold outrightBkStep
    exact foldl_middle_congr _ mkts1 mkts2 _ _ hm acc
  have hev : ∀ acc,
      outrightEventStep acc ⟨eid, eh, ea, ect,
        bks1 ++ ⟨bkKey, bkTitle, mkts1 ++ ⟨"outrights", pre ++ o :: post⟩ :: mkts2⟩ :: bks2⟩ =
      outrightEventStep acc ⟨eid, eh, ea, ect,
        bks1 ++ ⟨bkKey, bkTitle, mkts1 ++ ⟨"outrights", pre ++ post⟩ :: mkts2⟩ :: bks2⟩ := by
    intro acc
    unfold outrightEventStep
    exact foldl_middle_congr _ bks1 bks2 _ _ hbk acc
  have hcollect : collectOutrights (data1 ++
      ⟨eid, eh, ea, ect,
        bks1 ++ ⟨bkKey, bkTitle, mkts1 ++ ⟨"outrights", pre ++ o :: post⟩ :: mkts2⟩ :: bks2⟩ ::
      data2) = collectOutrights (data1 ++
      ⟨eid, eh, ea, ect,
        bks1 ++ ⟨bkKey, bkTitle, mkts1 ++ ⟨"outrights", pre ++ post⟩ :: mkts2⟩ :: bks2⟩ ::
      data2) := by
    unfold collectOutrights
    exact foldl_middle_congr _ data1 data2 _ _ hev []
  unfold process_web2_data
  rw [hcollect]

/-- C9 (confirmed): in the outrights path, every single quote whose raw implied
probability `1/odds` exceeds 0.60 is excluded from its outcome's de-vig group,
and only that quote — the rest of the batch processes to exactly the same
result as if the quote had never been present. -/
theorem futures_highprob_quote_dropped
    (data1 data2 : List OddsEvent) (eid eh ea ect : Option String)
    (bks1 bks2 : List BookmakerBlock) (bkKey bkTitle : String)
    (mkts1 mkts2 : List Market) (pre post : List Outcome)
    (o : Outcome) (d : ℚ) (hprice : o.price = some d) (hd : 1 < d) (hip : 3/5 < 1/d) :
    process_web2_data (data1 ++
      ⟨eid, eh, ea, ect,
        bks1 ++ ⟨bkKey, bkTitle, mkts1 ++ ⟨"outrights", pre ++ o :: post⟩ :: mkts2⟩ :: bks2⟩ ::
      data2) =
    process_web2_data (data1 ++
      ⟨eid, eh, ea, ect,
        bks1 ++ ⟨bkKey, bkTitle, mkts1 ++ ⟨"outrights", pre ++ post⟩ :: mkts2⟩ :: bks2⟩ ::
      data2) :=
  process_web2_data_drop_outcome data1 data2 eid eh ea ect bks1 bks2 bkKey bkTitle
    mkts1 mkts2 pre post o
    (outrightOutcomeStep_id bkKey bkTitle o d hprice (Or.inr ⟨hd, hip⟩))

/-- C9 witness: an implied probability of 0.72 (odds 25/18) is dropped from a
concrete one-bookmaker batch, leaving the other entrant's processing intact. -/
theorem futures_highprob_quote_dropped_witness :
    process_web2_data
      [⟨some "m", none, none, some "t",
        [⟨"bk", "BK", [⟨"outrights",
          [⟨some "Qa", some 2⟩, ⟨some "Qx", some (25/18)⟩]⟩]⟩]⟩] =
    process_web2_data
      [⟨some "m", none, none, some "t",
        [⟨"bk", "BK", [⟨"outrights", [⟨some "Qa", some 2⟩]⟩]⟩]⟩] :=
  futures_highprob_quote_dropped [] [] (some "m") none none (some "t") [] []
    "bk" "BK" [] [] [⟨some "Qa", some 2⟩] [] ⟨some "Qx", some (25/18)⟩ (25/18)
    rfl (by norm_num) (by norm_num)

/-- Evaluation of the h2h outcome scan on a two-outcome home/away market. -/
theorem parseH2HPrices_eval (p q : Option ℚ) :
    parseH2HPrices "H" "A" [⟨some "H", p⟩, ⟨some "A", q⟩] = (p, q) := by
  have hne : ¬(some "A" = some "H") := by decide
  simp [parseH2HPrices, hne]

/-- C8 (counterexample): the claim says an invalid quote (odds ≤ 1) is
discarded individually while remaining valid quotes of the same market are
still processed; but in the h2h path a bookmaker quoting home at 0.9 (invalid)
and away at 2.0 (valid) has its whole pair dropped — the away de-vig group
keeps only the other bookmaker's quote, not the valid 2.0 quote. -/
theorem h2h_pair_drop_counterexample :
    ((1:ℚ) < 2) ∧ ¬((1:ℚ) < 9/10) ∧
    collectH2H "H" "A"
      [⟨"bad", "Bad", [⟨"h2h", [⟨some "H", some (9/10)⟩, ⟨some "A", some 2⟩]⟩]⟩,
       ⟨"good", "Good", [⟨"h2h", [⟨some "H", some 2⟩, ⟨some "A", some 2⟩]⟩]⟩] =
      ([⟨(2:ℚ)⁻¹, "good", "Good"⟩], [⟨(2:ℚ)⁻¹, "good", "Good"⟩]) := by
  have hp1 := parseH2HPrices_eval (some (9/10)) (some 2)
  have hp2 := parseH2HPrices_eval (some 2) (some 2)
  refine ⟨by norm_num, by norm_num, ?_⟩
  norm_num [collectH2H, h2hBkStep, h2hMarketStep, hp1, hp2]

/-- A market whose parsed home/away pair has an invalid side contributes
nothing to the h2h collection step. -/
theorem h2hMarketStep_id (home away bkKey bkTitle : String) (mm : Market) (h a : ℚ)
    (hparse : parseH2HPrices home away mm.outcomes = (some h, some a))
    (hinv : h ≤ 1 ∨ a ≤ 1) :
    ∀ acc, h2hMarketStep home away bkKey bkTitle acc mm = acc := by
  intro acc
  unfold h2hMarketStep
  by_cases hk : mm.key = "h2h"
  · rw [if_pos hk]
    simp only [hparse]
    rw [if_neg]
    rintro ⟨-, -, h1, a1⟩
    rcases hinv with hle | hle <;> linarith
  · rw [if_neg hk]

/-- C8 (amended): in the outrights path an invalid quote (odds ≤ 1) is
discarded individually — everything else processes identically; in the h2h
path, one invalid side drops that bookmaker's entire home/away pair for that
market (including its valid partner quote), while all other bookmakers,
markets and events still process identically; both paths are total functions,
so no malformed quote raises or aborts the batch. -/
theorem invalid_quote_handling_amended
    (data1 data2 : List OddsEvent) (eid eh ea ect : Option String)
    (bks1 bks2 : List BookmakerBlock) (bkKey bkTitle : String)
    (mkts1 mkts2 : List Market) (pre post : List Outcome)
    (o : Outcome) (d : ℚ) (hprice : o.price = some d) (hd : d ≤ 1)
    (home away : String) (nbks1 nbks2 : List BookmakerBlock) (nk nt : String)
    (nmkts1 nmkts2 : List Market) (mm : Market) (h a : ℚ)
    (hparse : parseH2HPrices home away mm.outcomes = (some h, some a))
    (hinv : h ≤ 1 ∨ a ≤ 1) :
    process_web2_data (data1 ++
      ⟨eid, eh, ea, ect,
        bks1 ++ ⟨bkKey, bkTitle, mkts1 ++ ⟨"outrights", pre ++ o :: post⟩ :: mkts2⟩ :: bks2⟩ ::
      data2) =
    process_web2_data (data1 ++
      ⟨eid, eh, ea, ect,
        bks1 ++ ⟨bkKey, bkTitle, mkts1 ++ ⟨"outrights", pre ++ post⟩ :: mkts2⟩ :: bks2⟩ ::
      data2) ∧
    collectH2H home away (nbks1 ++ ⟨nk, nt, nmkts1 ++ mm :: nmkts2⟩ :: nbks2) =
      collectH2H home away (nbks1 ++ ⟨nk, nt, nmkts1 ++ nmkts2⟩ :: nbks2) := by
  constructor
  · exact process_web2_data_drop_outcome data1 data2 eid eh ea ect bks1 bks2 bkKey bkTitle
      mkts1 mkts2 pre post o
      (outrightOutcomeStep_id bkKey bkTitle o d hprice (Or.inl hd))
  · have hbk : ∀ acc, h2hBkStep home away acc ⟨nk, nt, nmkts1 ++ mm :: nmkts2⟩ =
        h2hBkStep home away acc ⟨nk, nt, nmkts1 ++ nmkts2⟩ := by
      intro acc
      unfold h2hBkStep
      exact foldl_middle_id _ nmkts1 nmkts2 mm
        (h2hMarketStep_id home away nk nt mm h a hparse hinv) acc
    unfold collectH2H
    exact foldl_middle_congr _ nbks1 nbks2 _ _ hbk ([], [])

/-- C8 witness: the amended invalid-quote theorem at a concrete outrights quote
of odds 0.9 and a concrete h2h market with an invalid home side 0.9 next to a
valid away side 2.0. -/
theorem invalid_quote_handling_amended_witness :
    process_web2_data
      [⟨some "m", none, none, some "t",
        [⟨"bk", "BK", [⟨"outrights",
          [⟨some "Qa", some 2⟩, ⟨some "Qx", some (9/10)⟩]⟩]⟩]⟩] =
    process_web2_data
      [⟨some "m", none, none, some "t",
        [⟨"bk", "BK", [⟨"outrights", [⟨some "Qa", some 2⟩]⟩]⟩]⟩] ∧
    collectH2H "H" "A"
      [⟨"bad", "Bad", [⟨"h2h", [⟨some "H", some (9/10)⟩, ⟨some "A", some 2⟩]⟩]⟩,
       ⟨"good", "Good", [⟨"h2h", [⟨some "H", some 2⟩, ⟨some "A", some 2⟩]⟩]⟩] =
    collectH2H "H" "A"
      [⟨"bad", "Bad", []⟩,
       ⟨"good", "Good", [⟨"h2h", [⟨some "H", some 2⟩, ⟨some "A", some 2⟩]⟩]⟩] :=
  invalid_quote_handling_amended [] [] (some "m") none none (some "t") [] []
    "bk" "BK" [] [] [⟨some "Qa", some 2⟩] [] ⟨some "Qx", some (9/10)⟩ (9/10)
    rfl (by norm_num) "H" "A"
    []
    [⟨"good", "Good", [⟨"h2h", [⟨some "H", some 2⟩, ⟨some "A", some 2⟩]⟩]⟩]
    "bad" "Bad" [] [] ⟨"h2h", [⟨some "H", some (9/10)⟩, ⟨some "A", some 2⟩]⟩
    (9/10) 2 (parseH2HPrices_eval (some (9/10)) (some 2)) (by norm_num)

/-- One Polymarket NBA daily-match market as consumed by `match_daily_games`. -/
structure PolyNba where
  team1 : String
  team2 : String
  team1_price : Option ℚ
  team2_price : Option ℚ
  url : String
  event_id : String
deriving DecidableEq

/-- One merged NBA record of `match_daily_games` (matched pair, bookmaker-only
row with null Polymarket prices, or Polymarket-only row with null odds). -/
structure MergedNba where
  match_id : String
  home_team : String
  away_team : String
  home_odds : Option ℚ
  away_odds : Option ℚ
  bookmaker : Option String
  poly_home_price : Option ℚ
  poly_away_price : Option ℚ
  polymarket_url : Option String
deriving DecidableEq

/-- The candidate scan of `match_daily_games`: first Polymarket entry matching
the standardized pair in either orientation wins (forward checked before
reversed for each candidate); the scan never consults the already-matched set. -/
def findPolyNba (stdHome stdAway : String) : ℕ → List PolyNba → Option (ℕ × PolyNba × Bool)
  | _, [] => none
  | i, p :: rest =>
    if p.team1 = stdHome ∧ p.team2 = stdAway then some (i, p, false)
    else if p.team2 = stdHome ∧ p.team1 = stdAway then some (i, p, true)
    else findPolyNba stdHome stdAway (i + 1) rest

/-- Processing of one bookmaker row by `match_daily_games`: resolve both team
names (falsy results keep the raw names and null prices), scan the Polymarket
candidates, and attach the matched prices in bookmaker orientation (swapped
when the match was reversed).  Because the scan is independent of the matched
set, the source's single pass over `web2_matches` appending to `merged` is the
map of this function. -/
def mergeOneNba (scorer : String → String → ℕ) (polys : List PolyNba)
    (w : NbaW2Match) : MergedNba × Option ℕ :=
  match (fuzzy_match_team scorer 75 w.home_team).1,
        (fuzzy_match_team scorer 75 w.away_team).1 with
  | some sh, some sa =>
    if sh = "" ∨ sa = "" then
      (⟨w.match_id, w.home_team, w.away_team, some w.home_odds, some w.away_odds,
        some w.bookmaker_key, none, none, none⟩, none)
    else
      match findPolyNba sh sa 0 polys with
      | some (i, p, rev) =>
        (⟨w.match_id, sh, sa, some w.home_odds, some w.away_odds, some w.bookmaker_key,
          if rev then p.team2_price else p.team1_price,
          if rev then p.team1_price else p.team2_price,
          some p.url⟩, some i)
      | none =>
        (⟨w.match_id, sh, sa, some w.home_odds, some w.away_odds, some w.bookmaker_key,
          none, none, none⟩, none)
  | _, _ =>
    (⟨w.match_id, w.home_team, w.away_team, some w.home_odds, some w.away_odds,
      some w.bookmaker_key, none, none, none⟩, none)

/-- Python `enumerate` over a list, starting at `k`. -/
def enumFrom {α : Type} : ℕ → List α → List (ℕ × α)
  | _, [] => []
  | i, a :: rest => (i, a) :: enumFrom (i + 1) rest

/-- The indices of Polymarket candidates consumed by some bookmaker row
(`matched_poly_indices`). -/
def matchedIdxNba (scorer : String → String → ℕ) (web2 : List NbaW2Match)
    (polys : List PolyNba) : List ℕ :=
  (web2.map (mergeOneNba scorer polys)).filterMap (·.2)

/-- The Polymarket-only record built for an unconsumed market event. -/
def mkPolyOnlyNba (p : PolyNba) : MergedNba :=
  ⟨"poly_" ++ p.event_id, p.team1, p.team2, none, none, none,
   p.team1_price, p.team2_price, some p.url⟩

/-- The Polymarket-only phase of `match_daily_games`: every candidate not in
the matched set and carrying both prices is appended once. -/
def polyOnlyNba (matched : List ℕ) (polys : List PolyNba) : List MergedNba :=
  ((enumFrom 0 polys).filter (fun ip =>
      !(matched.contains ip.1) && ip.2.team1_price.isSome && ip.2.team2_price.isSome)).map
    (fun ip => mkPolyOnlyNba ip.2)

/-- match_daily_games from `scraper.py`: the per-row merge results followed by
the Polymarket-only orphans. -/
def match_daily_games (scorer : String → String → ℕ) (web2 : List NbaW2Match)
    (polys : List PolyNba) : List MergedNba :=
  (web2.map (fun w => (mergeOneNba scorer polys w).1)) ++
    polyOnlyNba (matchedIdxNba scorer web2 polys) polys

/-- One Polymarket soccer daily-match market as consumed by
`match_soccer_games`. -/
structure PolySoc where
  home_team : String
  away_team : String
  home_price : Option ℚ
  draw_price : Option ℚ
  away_price : Option ℚ
  url : Option String
deriving DecidableEq

/-- One merged soccer record of `match_soccer_games`. -/
structure MergedSoc where
  match_id : String
  home_team : String
  away_team : String
  web2_home_odds : Option ℚ
  web2_draw_odds : Option ℚ
  web2_away_odds : Option ℚ
  poly_home_price : Option ℚ
  poly_draw_price : Option ℚ
  poly_away_price : Option ℚ
  polymarket_url : Option String
deriving DecidableEq

/-- The strict-normalization candidate scan of `match_soccer_games`: compare
lower-cased `normalize_team_for_matching` results, forward first, then
reversed, first hit wins. -/
def findStrictSoc (hn an : String) : ℕ → List PolySoc → Option (ℕ × PolySoc × Bool)
  | _, [] => none
  | i, p :: rest =>
    if strLower (normalize_team_for_matching p.home_team) = strLower hn ∧
       strLower (normalize_team_for_matching p.away_team) = strLower an then
      some (i, p, false)
    else if strLower (normalize_team_for_matching p.home_team) = strLower an ∧
       strLower (normalize_team_for_matching p.away_team) = strLower hn then
      some (i, p, true)
    else findStrictSoc hn an (i + 1) rest

/-- The fuzzy fallback scan of `match_soccer_games`: compare the resolver's
first components (`fuzzy_match_soccer_team(...)[0]`), forward then reversed. -/
def findFuzzySoc (scorer : String → String → ℕ) (fh fa : Option String) :
    ℕ → List PolySoc → Option (ℕ × PolySoc × Bool)
  | _, [] => none
  | i, p :: rest =>
    if (fuzzy_match_soccer_team scorer 75 p.home_team).1 = fh ∧
       (fuzzy_match_soccer_team scorer 75 p.away_team).1 = fa then
      some (i, p, false)
    else if (fuzzy_match_soccer_team scorer 75 p.home_team).1 = fa ∧
       (fuzzy_match_soccer_team scorer 75 p.away_team).1 = fh then
      some (i, p, true)
    else findFuzzySoc scorer fh fa (i + 1) rest

/-- The full candidate search of `match_soccer_games` for one bookmaker row:
the strict normalized scan first, the fuzzy fallback scan only if it missed. -/
def findPolySoc (scorer : String → String → ℕ) (polys : List PolySoc)
    (w : SocW2Match) : Option (ℕ × PolySoc × Bool) :=
  match findStrictSoc (normalize_team_for_matching w.home_team)
      (normalize_team_for_matching w.away_team) 0 polys with
  | some r => some r
  | none =>
    findFuzzySoc scorer (fuzzy_match_soccer_team scorer 75 w.home_team).1
      (fuzzy_match_soccer_team scorer 75 w.away_team).1 0 polys

/-- Processing of one bookmaker row by `match_soccer_games`: the merged record
keeps the row's own team names and odds, attaching maybe-swapped Polymarket
prices, or nulls when unmatched. -/
def mergeOneSoc (scorer : String → String → ℕ) (polys : List PolySoc)
    (w : SocW2Match) : MergedSoc × Option ℕ :=
  match findPolySoc scorer polys w with
  | some (i, p, rev) =>
    (⟨w.match_id, w.home_team, w.away_team,
      some w.home_odds, some w.draw_odds, some w.away_odds,
      if rev then p.away_price else p.home_price,
      p.draw_price,
      if rev then p.home_price else p.away_price,
      p.url⟩, some i)
  | none =>
    (⟨w.match_id, w.home_team, w.away_team,
      some w.home_odds, some w.draw_odds, some w.away_odds,
      none, none, none, none⟩, none)

/-- The matched Polymarket indices of the soccer pass. -/
def matchedIdxSoc (scorer : String → String → ℕ) (web2 : List SocW2Match)
    (polys : List PolySoc) : List ℕ :=
  (web2.map (mergeOneSoc scorer polys)).filterMap (·.2)

/-- The Polymarket-only soccer record: FC-suffix-cleaned team names and a
match id derived from the candidate index. -/
def mkPolyOnlySoc (i : ℕ) (p : PolySoc) : MergedSoc :=
  ⟨"poly_soccer_" ++ toString i,
   stripFCSuffix p.home_team, stripFCSuffix p.away_team,
   none, none, none, p.home_price, p.draw_price, p.away_price, p.url⟩

/-- The Polymarket-only phase of `match_soccer_games` (home and away price must
be present; a missing draw price is tolerated). -/
def polyOnlySoc (matched : List ℕ) (polys : List PolySoc) : List MergedSoc :=
  ((enumFrom 0 polys).filter (fun ip =>
      !(matched.contains ip.1) && ip.2.home_price.isSome && ip.2.away_price.isSome)).map
    (fun ip => mkPolyOnlySoc ip.1 ip.2)

/-- match_soccer_games from `scraper.py`. -/
def match_soccer_games (scorer : String → String → ℕ) (web2 : List SocW2Match)
    (polys : List PolySoc) : List MergedSoc :=
  (web2.map (fun w => (mergeOneSoc scorer polys w).1)) ++
    polyOnlySoc (matchedIdxSoc scorer web2 polys) polys

/-- Duplicate bookmaker row used by the C2 counterexample. -/
def wC2 : NbaW2Match := ⟨"m1", "celtics", "nets", "t", 1/2, 1/2, "bk"⟩

/-- The single Polymarket candidate consumed twice in the C2 counterexample. -/
def pC2 : PolyNba :=
  ⟨"Boston Celtics", "Brooklyn Nets", some (55/100), some (45/100), "u", "e1"⟩

/-- The merged pair that `match_daily_games` emits twice for `wC2`/`pC2`. -/
def rC2 : MergedNba :=
  ⟨"m1", "Boston Celtics", "Brooklyn Nets", some (1/2), some (1/2), some "bk",
   some (55/100), some (45/100), some "u"⟩

/-- C2 (counterexample): the candidate scan never removes a matched market
event from the pool, so two bookmaker rows resolving to the same team pair
both consume the single Polymarket event — its prices and URL appear in two
merged pairs, contradicting the claim that no market event is paired twice. -/
theorem pairing_double_consumption_counterexample :
    match_daily_games (fun _ _ => 0) [wC2, wC2] [pC2] = [rC2, rC2] ∧
    rC2.poly_home_price = some (55/100) ∧ rC2.polymarket_url = some "u" := by
  have hH : (fuzzy_match_team (fun _ _ => 0) 75 "celtics").1 = some "Boston Celtics" := by decide
  have hA : (fuzzy_match_team (fun _ _ => 0) 75 "nets").1 = some "Brooklyn Nets" := by decide
  have hfind : findPolyNba "Boston Celtics" "Brooklyn Nets" 0 [pC2] = some (0, pC2, false) := by
    simp [findPolyNba, pC2]
  have hmerge : mergeOneNba (fun _ _ => 0) [pC2] wC2 = (rC2, some 0) := by
    simp only [mergeOneNba, wC2, hH, hA]
    rw [if_neg (by simp)]
    rw [hfind]
    simp [rC2, pC2, wC2]
  refine ⟨?_, rfl, rfl⟩
  simp only [match_daily_games, matchedIdxNba, List.map_cons, List.map_nil, hmerge,
    polyOnlyNba, enumFrom, List.filterMap]
  simp [pC2]

/-- Indices below the enumeration start never occur in a filtered enumeration. -/
theorem countP_fst_enumFrom_lt {α : Type} (l : List α) (P : ℕ × α → Bool) (k m : ℕ)
    (hm : m < k) :
    ((enumFrom k l).filter P).countP (fun ip => ip.1 == m) = 0 := by
  induction l generalizing k with
  | nil => simp [enumFrom]
  | cons a t ih =>
    simp only [enumFrom, List.filter_cons]
    by_cases hP : P (k, a)
    · have h1 : ((k, a).1 == m) = false := by
        simp only [beq_eq_false_iff_ne, ne_eq]
        omega
      simp only [hP, if_true, List.countP_cons, h1]
      simp only [Bool.false_eq_true, if_false, Nat.add_zero]
      exact ih (k + 1) (by omega)
    · simp only [eq_false hP, if_false]
      exact ih (k + 1) (by omega)

/-- Exact-count of one index in a filtered enumeration: the index `k + i`
occurs exactly once if its entry passes the filter, else not at all. -/
theorem countP_fst_enumFrom_filter {α : Type} (l : List α) (P : ℕ × α → Bool) (k i : ℕ)
    (hi : i < l.length) :
    ((enumFrom k l).filter P).countP (fun ip => ip.1 == k + i) =
      if P (k + i, l.get ⟨i, hi⟩) then 1 else 0 := by
  induction l generalizing k i with
  | nil => simp at hi
  | cons a t ih =>
    cases i with
    | zero =>
      simp only [enumFrom, List.filter_cons, Nat.add_zero, List.get]
      have hrest : ((enumFrom (k + 1) t).filter P).countP (fun ip => ip.1 == k) = 0 :=
        countP_fst_enumFrom_lt t P (k + 1) k (by omega)
      by_cases hP : P (k, a)
      · simp only [hP, if_true, List.countP_cons, hrest]
        simp
      · simp only [eq_false hP, if_false, hrest]
    | succ j =>
      have hj : j < t.length := by simpa using Nat.lt_of_succ_lt_succ hi
      have harith : k + (j + 1) = (k + 1) + j := by omega
      have hget : (a :: t).get ⟨j + 1, hi⟩ = t.get ⟨j, hj⟩ := rfl
      simp only [enumFrom, List.filter_cons, hget, harith]
      have hne : ((k, a).1 == (k + 1) + j) = false := by
        simp only [beq_eq_false_iff_ne, ne_eq]
        omega
      by_cases hP : P (k, a)
      · simp only [hP, if_true, List.countP_cons, hne]
        simp only [Bool.false_eq_true, if_false, Nat.add_zero]
        exact ih (k + 1) j hj
      · simp only [eq_false hP, if_false]
        exact ih (k + 1) j hj

/-- Every positioned element of a list occurs in its enumeration. -/
theorem mem_enumFrom_get {α : Type} (l : List α) (k j : ℕ) (hj : j < l.length) :
    (k + j, l.get ⟨j, hj⟩) ∈ enumFrom k l := by
  induction l generalizing k j with
  | nil => simp at hj
  | cons a t ih =>
    cases j with
    | zero => simp [enumFrom]
    | succ m =>
      have hm : m < t.length := by simpa using Nat.lt_of_succ_lt_succ hj
      have harith : k + (m + 1) = (k + 1) + m := by omega
      have hget : (a :: t).get ⟨m + 1, hj⟩ = t.get ⟨m, hm⟩ := rfl
      rw [hget, harith]
      exact List.mem_cons_of_mem _ (ih (k + 1) m hm)

/-- C2 (amended): the merged output is the per-row merge results followed by
the Polymarket-only suffix; every market event that was matched by some
bookmaker row is excluded from that suffix, and every unmatched market event
carrying both prices appears in it exactly once — but (per the counterexample)
a matched market event is not removed from the candidate pool, so bookmaker
rows resolving to the same pair can consume the same market event repeatedly. -/
theorem pairing_orphan_once_amended (scorer : String → String → ℕ)
    (web2 : List NbaW2Match) (polys : List PolyNba) (i : ℕ) (hi : i < polys.length)
    (sweb2 : List SocW2Match) (spolys : List PolySoc) (j : ℕ) (hj : j < spolys.length) :
    match_daily_games scorer web2 polys =
      (web2.map (fun w => (mergeOneNba scorer polys w).1)) ++
        polyOnlyNba (matchedIdxNba scorer web2 polys) polys ∧
    ((enumFrom 0 polys).filter (fun ip =>
        !((matchedIdxNba scorer web2 polys).contains ip.1) &&
          ip.2.team1_price.isSome && ip.2.team2_price.isSome)).countP
        (fun ip => ip.1 == i) =
      (if !((matchedIdxNba scorer web2 polys).contains i) &&
          (polys.get ⟨i, hi⟩).team1_price.isSome && (polys.get ⟨i, hi⟩).team2_price.isSome
        then 1 else 0) ∧
    match_soccer_games scorer sweb2 spolys =
      (sweb2.map (fun w => (mergeOneSoc scorer spolys w).1)) ++
        polyOnlySoc (matchedIdxSoc scorer sweb2 spolys) spolys ∧
    ((enumFrom 0 spolys).filter (fun ip =>
        !((matchedIdxSoc scorer sweb2 spolys).contains ip.1) &&
          ip.2.home_price.isSome && ip.2.away_price.isSome)).countP
        (fun ip => ip.1 == j) =
      (if !((matchedIdxSoc scorer sweb2 spolys).contains j) &&
          (spolys.get ⟨j, hj⟩).home_price.isSome && (spolys.get ⟨j, hj⟩).away_price.isSome
        then 1 else 0) := by
  refine ⟨rfl, ?_, rfl, ?_⟩
  · have := countP_fst_enumFrom_filter polys
      (fun ip => !((matchedIdxNba scorer web2 polys).contains ip.1) &&
        ip.2.team1_price.isSome && ip.2.team2_price.isSome) 0 i hi
    simpa using this
  · have := countP_fst_enumFrom_filter spolys
      (fun ip => !((matchedIdxSoc scorer sweb2 spolys).contains ip.1) &&
        ip.2.home_price.isSome && ip.2.away_price.isSome) 0 j hj
    simpa using this

/-- Concrete soccer Polymarket candidate for the C2 witness. -/
def pSocC2 : PolySoc := ⟨"W", "N", some (1/2), some (1/4), some (1/4), some "u"⟩

/-- C2 witness: the orphan-exactly-once theorem at one concrete NBA candidate
and one concrete soccer candidate with no bookmaker rows. -/
theorem pairing_orphan_once_amended_witness :
    match_daily_games (fun _ _ => 0) [] [pC2] =
      (([] : List NbaW2Match).map (fun w => (mergeOneNba (fun _ _ => 0) [pC2] w).1)) ++
        polyOnlyNba (matchedIdxNba (fun _ _ => 0) [] [pC2]) [pC2] ∧
    ((enumFrom 0 [pC2]).filter (fun ip =>
        !((matchedIdxNba (fun _ _ => 0) [] [pC2]).contains ip.1) &&
          ip.2.team1_price.isSome && ip.2.team2_price.isSome)).countP
        (fun ip => ip.1 == 0) =
      (if !((matchedIdxNba (fun _ _ => 0) [] [pC2]).contains 0) &&
          ([pC2].get ⟨0, by decide⟩).team1_price.isSome &&
          ([pC2].get ⟨0, by decide⟩).team2_price.isSome
        then 1 else 0) ∧
    match_soccer_games (fun _ _ => 0) [] [pSocC2] =
      (([] : List SocW2Match).map (fun w => (mergeOneSoc (fun _ _ => 0) [pSocC2] w).1)) ++
        polyOnlySoc (matchedIdxSoc (fun _ _ => 0) [] [pSocC2]) [pSocC2] ∧
    ((enumFrom 0 [pSocC2]).filter (fun ip =>
        !((matchedIdxSoc (fun _ _ => 0) [] [pSocC2]).contains ip.1) &&
          ip.2.home_price.isSome && ip.2.away_price.isSome)).countP
        (fun ip => ip.1 == 0) =
      (if !((matchedIdxSoc (fun _ _ => 0) [] [pSocC2]).contains 0) &&
          ([pSocC2].get ⟨0, by decide⟩).home_price.isSome &&
          ([pSocC2].get ⟨0, by decide⟩).away_price.isSome
        then 1 else 0) :=
  pairing_orphan_once_amended (fun _ _ => 0) [] [pC2] 0 (by decide) [] [pSocC2] 0 (by decide)

/-- Market-side event with a missing team1 price, used by the C6
counterexample. -/
def pC6 : PolyNba := ⟨"Qairat FK", "Kairat Almaty", none, some (1/2), "u", "e"⟩

/-- C6 (counterexample): a market-side event with no bookmaker-side
counterpart but a missing price is silently dropped — the merged output is
empty, not a market-orphan record. -/
theorem market_orphan_dropped_counterexample :
    match_daily_games (fun _ _ => 0) [] [pC6] = [] ∧ pC6.team2_price = some (1/2) := by
  refine ⟨?_, rfl⟩
  simp [match_daily_games, matchedIdxNba, polyOnlyNba, enumFrom, pC6]

/-- C6 (amended): every bookmaker-side row is retained in the merged output
(with null market prices when unmatched), and every unmatched market-side
event carrying the required prices (both prices on the NBA path; home and away
on the soccer path) is retained as a market-only orphan; a market event with a
missing required price, however, is silently dropped (per the counterexample). -/
theorem orphan_retention_amended (scorer : String → String → ℕ)
    (web2 : List NbaW2Match) (polys : List PolyNba)
    (w : NbaW2Match) (hw : w ∈ web2) (i : ℕ) (hi : i < polys.length)
    (sweb2 : List SocW2Match) (spolys : List PolySoc)
    (sw : SocW2Match) (hsw : sw ∈ sweb2) (j : ℕ) (hj : j < spolys.length) :
    (mergeOneNba scorer polys w).1 ∈ match_daily_games scorer web2 polys ∧
    ((mergeOneNba scorer polys w).2 = none →
      (mergeOneNba scorer polys w).1.poly_home_price = none ∧
      (mergeOneNba scorer polys w).1.poly_away_price = none ∧
      (mergeOneNba scorer polys w).1.polymarket_url = none) ∧
    (¬(matchedIdxNba scorer web2 polys).contains i →
      (polys.get ⟨i, hi⟩).team1_price.isSome →
      (polys.get ⟨i, hi⟩).team2_price.isSome →
      mkPolyOnlyNba (polys.get ⟨i, hi⟩) ∈ match_daily_games scorer web2 polys) ∧
    (mergeOneSoc scorer spolys sw).1 ∈ match_soccer_games scorer sweb2 spolys ∧
    ((mergeOneSoc scorer spolys sw).2 = none →
      (mergeOneSoc scorer spolys sw).1.poly_home_price = none ∧
      (mergeOneSoc scorer spolys sw).1.poly_draw_price = none ∧
      (mergeOneSoc scorer spolys sw).1.poly_away_price = none ∧
      (mergeOneSoc scorer spolys sw).1.polymarket_url = none) ∧
    (¬(matchedIdxSoc scorer sweb2 spolys).contains j →
      (spolys.get ⟨j, hj⟩).home_price.isSome →
      (spolys.get ⟨j, hj⟩).away_price.isSome →
      mkPolyOnlySoc j (spolys.get ⟨j, hj⟩) ∈ match_soccer_games scorer sweb2 spolys) := by
  refine ⟨?_, ?_, ?_, ?_, ?_, ?_⟩
  · exact List.mem_append_left _ (List.mem_map_of_mem _ hw)
  · intro h2
    unfold mergeOneNba at h2 ⊢
    cases hf1 : (fuzzy_match_team scorer 75 w.home_team).1 with
    | none => simp [hf1]
    | some sh =>
      cases hf2 : (fuzzy_match_team scorer 75 w.away_team).1 with
      | none => simp [hf1, hf2]
      | some sa =>
        simp only [hf1, hf2] at h2 ⊢
        by_cases hss : sh = "" ∨ sa = ""
        · simp [hss]
        · simp only [hss, if_false] at h2 ⊢
          cases hfind : findPolyNba sh sa 0 polys with
          | none => simp [hfind]
          | some x =>
            obtain ⟨ii, pp, rr⟩ := x
            rw [hfind] at h2
            simp at h2
  · intro hnc hp1 hp2
    apply List.mem_append_right
    unfold polyOnlyNba
    apply List.mem_map.mpr
    refine ⟨(i, polys.get ⟨i, hi⟩), List.mem_filter.mpr ⟨?_, ?_⟩, rfl⟩
    · simpa using mem_enumFrom_get polys 0 i hi
    · simp only [Bool.and_eq_true, Bool.not_eq_true']
      refine ⟨⟨?_, hp1⟩, hp2⟩
      simpa using hnc
  · exact List.mem_append_left _ (List.mem_map_of_mem _ hsw)
  · intro h2
    unfold mergeOneSoc at h2 ⊢
    cases hfound : findPolySoc scorer spolys sw with
    | none => simp [hfound]
    | some x =>
      obtain ⟨ii, pp, rr⟩ := x
      rw [hfound] at h2
      simp at h2
  · intro hnc hp1 hp2
    apply List.mem_append_right
    unfold polyOnlySoc
    apply List.mem_map.mpr
    refine ⟨(j, spolys.get ⟨j, hj⟩), List.mem_filter.mpr ⟨?_, ?_⟩, rfl⟩
    · simpa using mem_enumFrom_get spolys 0 j hj
    · simp only [Bool.and_eq_true, Bool.not_eq_true']
      refine ⟨⟨?_, hp1⟩, hp2⟩
      simpa using hnc

/-- Concrete rows for the C6 witness. -/
def wC6 : NbaW2Match := ⟨"m6", "celtics", "nets", "t", 1/2, 1/2, "bk"⟩

/-- Concrete soccer row for the C6 witness. -/
def swC6 : SocW2Match := ⟨"s6", "Arsenal", "Chelsea", "t", 1/2, 1/4, 1/4, "bk"⟩

/-- Concrete NBA market candidate with both prices for the C6 witness. -/
def pC6b : PolyNba := ⟨"X", "Y", some (1/2), some (1/2), "u", "e"⟩

/-- Concrete soccer market candidate with all prices for the C6 witness. -/
def pSocC6 : PolySoc := ⟨"X", "Y", some (1/2), some (1/4), some (1/4), some "u"⟩

/-- C6 witness: the retention theorem at one concrete bookmaker row and one
concrete market candidate per path. -/
theorem orphan_retention_amended_witness :
    (mergeOneNba (fun _ _ => 0) [pC6b] wC6).1 ∈
      match_daily_games (fun _ _ => 0) [wC6] [pC6b] ∧
    ((mergeOneNba (fun _ _ => 0) [pC6b] wC6).2 = none →
      (mergeOneNba (fun _ _ => 0) [pC6b] wC6).1.poly_home_price = none ∧
      (mergeOneNba (fun _ _ => 0) [pC6b] wC6).1.poly_away_price = none ∧
      (mergeOneNba (fun _ _ => 0) [pC6b] wC6).1.polymarket_url = none) ∧
    (¬(matchedIdxNba (fun _ _ => 0) [wC6] [pC6b]).contains 0 →
      ([pC6b].get ⟨0, by decide⟩).team1_price.isSome →
      ([pC6b].get ⟨0, by decide⟩).team2_price.isSome →
      mkPolyOnlyNba ([pC6b].get ⟨0, by decide⟩) ∈
        match_daily_games (fun _ _ => 0) [wC6] [pC6b]) ∧
    (mergeOneSoc (fun _ _ => 0) [pSocC6] swC6).1 ∈
      match_soccer_games (fun _ _ => 0) [swC6] [pSocC6] ∧
    ((mergeOneSoc (fun _ _ => 0) [pSocC6] swC6).2 = none →
      (mergeOneSoc (fun _ _ => 0) [pSocC6] swC6).1.poly_home_price = none ∧
      (mergeOneSoc (fun _ _ => 0) [pSocC6] swC6).1.poly_draw_price = none ∧
      (mergeOneSoc (fun _ _ => 0) [pSocC6] swC6).1.poly_away_price = none ∧
      (mergeOneSoc (fun _ _ => 0) [pSocC6] swC6).1.polymarket_url = none) ∧
    (¬(matchedIdxSoc (fun _ _ => 0) [swC6] [pSocC6]).contains 0 →
      ([pSocC6].get ⟨0, by decide⟩).home_price.isSome →
      ([pSocC6].get ⟨0, by decide⟩).away_price.isSome →
      mkPolyOnlySoc 0 ([pSocC6].get ⟨0, by decide⟩) ∈
        match_soccer_games (fun _ _ => 0) [swC6] [pSocC6]) :=
  orphan_retention_amended (fun _ _ => 0) [wC6] [pC6b] wC6 (List.mem_cons_self _ _)
    0 (by decide) [swC6] [pSocC6] swC6 (List.mem_cons_self _ _) 0 (by decide)

/-- C5 (confirmed): when the bookmaker row's teams resolve to distinct
non-empty canonical names A (home) and B (away), a market event listing (A,B)
or (B,A) produces exactly one merged pair — the output is that single record,
with the market prices swapped into bookmaker orientation in the reversed case
and no orphan rows — on both the NBA path and the soccer strict path. -/
theorem pairing_orientation_insensitive (scorer : String → String → ℕ)
    (w : NbaW2Match) (A B : String) (pF pR : PolyNba)
    (hA : (fuzzy_match_team scorer 75 w.home_team).1 = some A)
    (hB : (fuzzy_match_team scorer 75 w.away_team).1 = some B)
    (hAne : A ≠ "") (hBne : B ≠ "") (hAB : A ≠ B)
    (hF1 : pF.team1 = A) (hF2 : pF.team2 = B)
    (hR1 : pR.team1 = B) (hR2 : pR.team2 = A)
    (sw : SocW2Match) (pSF pSR : PolySoc)
    (hf1 : strLower (normalize_team_for_matching pSF.home_team) =
      strLower (normalize_team_for_matching sw.home_team))
    (hf2 : strLower (normalize_team_for_matching pSF.away_team) =
      strLower (normalize_team_for_matching sw.away_team))
    (hr1 : strLower (normalize_team_for_matching pSR.home_team) =
      strLower (normalize_team_for_matching sw.away_team))
    (hr2 : strLower (normalize_team_for_matching pSR.away_team) =
      strLower (normalize_team_for_matching sw.home_team))
    (hne : strLower (normalize_team_for_matching sw.home_team) ≠
      strLower (normalize_team_for_matching sw.away_team)) :
    match_daily_games scorer [w] [pF] =
      [⟨w.match_id, A, B, some w.home_odds, some w.away_odds, some w.bookmaker_key,
        pF.team1_price, pF.team2_price, some pF.url⟩] ∧
    match_daily_games scorer [w] [pR] =
      [⟨w.match_id, A, B, some w.home_odds, some w.away_odds, some w.bookmaker_key,
        pR.team2_price, pR.team1_price, some pR.url⟩] ∧
    match_soccer_games scorer [sw] [pSF] =
      [⟨sw.match_id, sw.home_team, sw.away_team,
        some sw.home_odds, some sw.draw_odds, some sw.away_odds,
        pSF.home_price, pSF.draw_price, pSF.away_price, pSF.url⟩] ∧
    match_soccer_games scorer [sw] [pSR] =
      [⟨sw.match_id, sw.home_team, sw.away_team,
        some sw.home_odds, some sw.draw_odds, some sw.away_odds,
        pSR.away_price, pSR.draw_price, pSR.home_price, pSR.url⟩] := by
  have hss : ¬(A = "" ∨ B = "") := by
    rintro (h | h)
    · exact hAne h
    · exact hBne h
  have hfindF : findPolyNba A B 0 [pF] = some (0, pF, false) := by
    unfold findPolyNba
    rw [if_pos ⟨hF1, hF2⟩]
  have hfindR : findPolyNba A B 0 [pR] = some (0, pR, true) := by
    unfold findPolyNba
    rw [if_neg, if_pos ⟨hR2, hR1⟩]
    rintro ⟨h1, -⟩
    rw [hR1] at h1
    exact hAB h1.symm
  have hmF : mergeOneNba scorer [pF] w =
      (⟨w.match_id, A, B, some w.home_odds, some w.away_odds, some w.bookmaker_key,
        pF.team1_price, pF.team2_price, some pF.url⟩, some 0) := by
    unfold mergeOneNba
    simp only [hA, hB]
    rw [if_neg hss, hfindF]
    simp
  have hmR : mergeOneNba scorer [pR] w =
      (⟨w.match_id, A, B, some w.home_odds, some w.away_odds, some w.bookmaker_key,
        pR.team2_price, pR.team1_price, some pR.url⟩, some 0) := by
    unfold mergeOneNba
    simp only [hA, hB]
    rw [if_neg hss, hfindR]
    simp
  have hstrictF : findStrictSoc (normalize_team_for_matching sw.home_team)
      (normalize_team_for_matching sw.away_team) 0 [pSF] = some (0, pSF, false) := by
    unfold findStrictSoc
    rw [if_pos ⟨hf1, hf2⟩]
  have hstrictR : findStrictSoc (normalize_team_for_matching sw.home_team)
      (normalize_team_for_matching sw.away_team) 0 [pSR] = some (0, pSR, true) := by
    unfold findStrictSoc
    rw [if_neg, if_pos ⟨hr1, hr2⟩]
    rintro ⟨h1, -⟩
    rw [hr1] at h1
    exact hne h1.symm
  have hmSF : mergeOneSoc scorer [pSF] sw =
      (⟨sw.match_id, sw.home_team, sw.away_team,
        some sw.home_odds, some sw.draw_odds, some sw.away_odds,
        pSF.home_price, pSF.draw_price, pSF.away_price, pSF.url⟩, some 0) := by
    unfold mergeOneSoc findPolySoc
    rw [hstrictF]
    simp
  have hmSR : mergeOneSoc scorer [pSR] sw =
      (⟨sw.match_id, sw.home_team, sw.away_team,
        some sw.home_odds, some sw.draw_odds, some sw.away_odds,
        pSR.away_price, pSR.draw_price, pSR.home_price, pSR.url⟩, some 0) := by
    unfold mergeOneSoc findPolySoc
    rw [hstrictR]
    simp
  refine ⟨?_, ?_, ?_, ?_⟩
  · simp [match_daily_games, matchedIdxNba, hmF, polyOnlyNba, enumFrom]
  · simp [match_daily_games, matchedIdxNba, hmR, polyOnlyNba, enumFrom]
  · simp [match_soccer_games, matchedIdxSoc, hmSF, polyOnlySoc, enumFrom]
  · simp [match_soccer_games, matchedIdxSoc, hmSR, polyOnlySoc, enumFrom]

/-- Concrete bookmaker row for the C5 witness. -/
def wC5 : NbaW2Match := ⟨"m5", "celtics", "nets", "t", 1/2, 1/2, "bk"⟩

def pC5F : PolyNba :=
  ⟨"Boston Celtics", "Brooklyn Nets", some (6/10), some (4/10), "uf", "ef"⟩

def pC5R : PolyNba :=
  ⟨"Brooklyn Nets", "Boston Celtics", some (4/10), some (6/10), "ur", "er"⟩

def swC5 : SocW2Match :=
  ⟨"s5", "Wolverhampton Wanderers", "Newcastle United", "t", 1/2, 1/4, 1/4, "bk"⟩

def pSC5F : PolySoc := ⟨"Wolves", "Newcastle", some (5/10), some (3/10), some (2/10), some "uf"⟩

def pSC5R : PolySoc := ⟨"Newcastle", "Wolves", some (2/10), some (3/10), some (5/10), some "ur"⟩

set_option maxRecDepth 20000 in
/-- C5 witness: the orientation theorem at concrete NBA and soccer rows with
the market event listed in both orders. -/
theorem pairing_orientation_insensitive_witness :
    match_daily_games (fun _ _ => 0) [wC5] [pC5F] =
      [⟨wC5.match_id, "Boston Celtics", "Brooklyn Nets", some wC5.home_odds,
        some wC5.away_odds, some wC5.bookmaker_key,
        pC5F.team1_price, pC5F.team2_price, some pC5F.url⟩] ∧
    match_daily_games (fun _ _ => 0) [wC5] [pC5R] =
      [⟨wC5.match_id, "Boston Celtics", "Brooklyn Nets", some wC5.home_odds,
        some wC5.away_odds, some wC5.bookmaker_key,
        pC5R.team2_price, pC5R.team1_price, some pC5R.url⟩] ∧
    match_soccer_games (fun _ _ => 0) [swC5] [pSC5F] =
      [⟨swC5.match_id, swC5.home_team, swC5.away_team,
        some swC5.home_odds, some swC5.draw_odds, some swC5.away_odds,
        pSC5F.home_price, pSC5F.draw_price, pSC5F.away_price, pSC5F.url⟩] ∧
    match_soccer_games (fun _ _ => 0) [swC5] [pSC5R] =
      [⟨swC5.match_id, swC5.home_team, swC5.away_team,
        some swC5.home_odds, some swC5.draw_odds, some swC5.away_odds,
        pSC5R.away_price, pSC5R.draw_price, pSC5R.home_price, pSC5R.url⟩] :=
  pairing_orientation_insensitive (fun _ _ => 0) wC5 "Boston Celtics" "Brooklyn Nets"
    pC5F pC5R
    (by decide) (by decide) (by decide) (by decide) (by decide)
    rfl rfl rfl rfl
    swC5 pSC5F pSC5R
    (by decide) (by decide) (by decide) (by decide) (by decide)
